import Mathlib

/-!
# light-matrix: map / reduce expression subsystem

A shallow embedding of

* `light_mat/core/lang_base.h` (`obj_wrapper`),
* `light_mat/mateval/internal/map_expr_internal.h` (value type, shape / domain
  resolution, reader adapters, evaluation policy),
* `light_mat/matrix/matrix_ewise_expr.h` (unary / binary element-wise nodes, `ewise`, `cast`),
* `light_mat/matrix/partial_reduce.h` (column-wise / row-wise reduction nodes, `sum`, `mean`).

Template parameters become ordinary arguments: a C++ type is represented by a
descriptor (`VType`, `XprMeta`, `XprT`), a compile-time constant by a field or a
function of the descriptor, a failing `static_assert` or a thrown exception by
`Except.error`.  `index_t` and `int` are `Int`; `size_t` is `Nat` reduced modulo `2 ^ 64`.
-/

namespace lmat

/-! ## Basic descriptors -/

/-- Element (value) types that occur as `value_type` of an expression or as the type of a
scalar operand.  `mask_t T` is the companion mask type of `T`. -/
inductive VType where
  | float
  | double
  | int32
  | bool
  | mask_t (T : VType)
  deriving DecidableEq, Repr

/-- Execution domain tag of a matrix expression type (`meta::domain_of<Mat>::type`). -/
structure domain_tag where
  id : Nat
  deriving DecidableEq, Repr

/-- SIMD kind tag (the `Kind` template argument of `math::simd_traits<T, Kind>`). -/
structure simd_kind where
  id : Nat
  deriving DecidableEq, Repr

/-- Failures: ill-formed instantiations (build failures) and exceptions thrown at run time. -/
inductive XprError where
  /-- The template is only declared for this argument pattern: no specialization is defined. -/
  | incomplete_type
  /-- A `static_assert` failed (`LMAT_CHECK_EWISE_ACC_SUPPORT`). -/
  | static_assert_failed
  /-- Compile-time extents or domains of two expression operands are incompatible. -/
  | incompatible_operands
  /-- Run-time size mismatch (`check_same_size`, `common_shape`). -/
  | size_mismatch
  /-- No overload of the called function accepts the arguments. -/
  | no_matching_function
  /-- The returned expression has no conversion to the declared return type. -/
  | no_viable_conversion
  deriving DecidableEq, Repr

deriving instance DecidableEq for Except

/-- Run-time value of a `matrix_shape<M, N>` object: the pair of extents. -/
structure matrix_shape where
  nrows : Int
  ncolumns : Int
  deriving DecidableEq, Repr

/-- Compile-time facts about a matrix expression type `Mat`, as read by
`map_expr_internal.h` through `matrix_traits<Mat>` and `meta::*<Mat>`. A compile-time
extent `0` means that the extent is only known at run time. -/
structure XprMeta where
  /-- The member `matrix_traits<Mat>::value_type`. -/
  value_type : VType
  /-- The constant `meta::nrows<Mat>::value`. -/
  nrows : Int
  /-- The constant `meta::ncols<Mat>::value`. -/
  ncols : Int
  /-- The constant `meta::nelems<Mat>::value`. -/
  nelems : Int
  /-- The type `meta::domain_of<Mat>::type`. -/
  domain : domain_tag
  /-- The constant `meta::supports_ewise_access<Mat>::value`. -/
  supports_ewise_access : Bool
  /-- The constant `meta::supports_linear_index<Mat>::value`. -/
  supports_linear_index : Bool
  /-- The constant `meta::is_continuous<Mat>::value`. -/
  is_continuous : Bool
  /-- The constant `meta::is_percol_continuous<Mat>::value`. -/
  is_percol_continuous : Bool
  deriving DecidableEq, Repr

/-- An expression operand as seen by the resolvers: its static type facts and the value
returned by its `shape()` member. -/
structure MatOperand where
  ty : XprMeta
  shape : matrix_shape
  deriving DecidableEq, Repr

/-- An operand of a map expression: a matrix expression, or a bare scalar of type `T`
holding the value `v`. -/
inductive Arg where
  | xpr (a : MatOperand)
  | scalar (T : VType) (v : Int)
  deriving DecidableEq, Repr

/-- The trait `meta::is_mat_xpr<Arg>::value`. -/
def is_mat_xpr : Arg → Bool
  | .xpr _ => true
  | .scalar _ _ => false

/-- The collaborators of `map_expr_internal.h` that live in other headers
(`matrix_properties.h`, `simd` traits): they are taken as parameters. -/
structure MetaLib where
  /-- The constant `meta::common_nrows<Args...>::value` over expression types. -/
  common_nrows : List XprMeta → Except XprError Int
  /-- The constant `meta::common_ncols<Args...>::value` over expression types. -/
  common_ncols : List XprMeta → Except XprError Int
  /-- The type `meta::common_domain<Args...>::type` over expression types. -/
  common_domain : List XprMeta → Except XprError domain_tag
  /-- The function `common_shape(args...)` over expression operands; it may throw. -/
  common_shape : List MatOperand → Except XprError matrix_shape
  /-- The type `meta::common_value_type<S, D>::type`. -/
  common_value_type : XprMeta → XprMeta → VType
  /-- The constant `math::simd_traits<T, Kind>::pack_width`. -/
  pack_width : VType → simd_kind → Int
  /-- The type `default_simd_kind`. -/
  default_simd_kind : simd_kind

/-! ## `map_expr_internal.h`: value type determination -/

/-- The specializations `_arg_value_type<Arg, true>` and `_arg_value_type<Arg, false>`,
selected by `arg_value_type<Arg>` through `meta::is_mat_xpr<Arg>`. -/
def arg_value_type : Arg → VType
  | .xpr a => a.ty.value_type
  | .scalar T _ => T

/-! ## `map_expr_internal.h`: map helper -/

/-- The macro `LMAT_CHECK_EWISE_ACC_SUPPORT(A)`: a `static_assert` on
`meta::supports_ewise_access<A>::value`. -/
def LMAT_CHECK_EWISE_ACC_SUPPORT (A : XprMeta) : Except XprError Unit :=
  if A.supports_ewise_access then .ok () else .error .static_assert_failed

/-- The members of an instantiated `map_expr_helperN`: the static constants `ct_nrows`,
`ct_ncols` (the arguments of `shape_type`), the `domain` typedef, and the outcome of
`get_shape` on the operands the helper was instantiated for. -/
structure map_expr_helper_t where
  ct_nrows : Int
  ct_ncols : Int
  domain : domain_tag
  get_shape : Except XprError matrix_shape
  deriving DecidableEq, Repr

/-- The template `map_expr_helper1<Arg>`. -/
def map_expr_helper1 (arg : MatOperand) : Except XprError map_expr_helper_t := do
  LMAT_CHECK_EWISE_ACC_SUPPORT arg.ty
  pure ⟨arg.ty.nrows, arg.ty.ncols, arg.ty.domain, .ok arg.shape⟩

/-- The template `map_expr_helper2<Arg1, Arg2, IsXpr1, IsXpr2>` with its three
specializations `<false, true>`, `<true, false>`, `<true, true>`; the primary template is
declared only. -/
def map_expr_helper2 (L : MetaLib) : Arg → Arg → Except XprError map_expr_helper_t
  | .scalar _ _, .xpr arg2 => do
      LMAT_CHECK_EWISE_ACC_SUPPORT arg2.ty
      pure ⟨arg2.ty.nrows, arg2.ty.ncols, arg2.ty.domain, .ok arg2.shape⟩
  | .xpr arg1, .scalar _ _ => do
      LMAT_CHECK_EWISE_ACC_SUPPORT arg1.ty
      pure ⟨arg1.ty.nrows, arg1.ty.ncols, arg1.ty.domain, .ok arg1.shape⟩
  | .xpr arg1, .xpr arg2 => do
      LMAT_CHECK_EWISE_ACC_SUPPORT arg1.ty
      LMAT_CHECK_EWISE_ACC_SUPPORT arg2.ty
      let r ← L.common_nrows [arg1.ty, arg2.ty]
      let c ← L.common_ncols [arg1.ty, arg2.ty]
      let d ← L.common_domain [arg1.ty, arg2.ty]
      pure ⟨r, c, d, L.common_shape [arg1, arg2]⟩
  | .scalar _ _, .scalar _ _ => .error .incomplete_type

/-- The template `map_expr_helper3<Arg1, Arg2, Arg3, IsXpr1, IsXpr2, IsXpr3>` with its seven
specializations; the primary template is declared only. -/
def map_expr_helper3 (L : MetaLib) : Arg → Arg → Arg → Except XprError map_expr_helper_t
  | .scalar _ _, .scalar _ _, .xpr arg3 => do
      LMAT_CHECK_EWISE_ACC_SUPPORT arg3.ty
      pure ⟨arg3.ty.nrows, arg3.ty.ncols, arg3.ty.domain, .ok arg3.shape⟩
  | .scalar _ _, .xpr arg2, .scalar _ _ => do
      LMAT_CHECK_EWISE_ACC_SUPPORT arg2.ty
      pure ⟨arg2.ty.nrows, arg2.ty.ncols, arg2.ty.domain, .ok arg2.shape⟩
  | .xpr arg1, .scalar _ _, .scalar _ _ => do
      LMAT_CHECK_EWISE_ACC_SUPPORT arg1.ty
      pure ⟨arg1.ty.nrows, arg1.ty.ncols, arg1.ty.domain, .ok arg1.shape⟩
  | .scalar _ _, .xpr arg2, .xpr arg3 => do
      LMAT_CHECK_EWISE_ACC_SUPPORT arg2.ty
      LMAT_CHECK_EWISE_ACC_SUPPORT arg3.ty
      let r ← L.common_nrows [arg2.ty, arg3.ty]
      let c ← L.common_ncols [arg2.ty, arg3.ty]
      let d ← L.common_domain [arg2.ty, arg3.ty]
      pure ⟨r, c, d, L.common_shape [arg2, arg3]⟩
  | .xpr arg1, .scalar _ _, .xpr arg3 => do
      LMAT_CHECK_EWISE_ACC_SUPPORT arg1.ty
      LMAT_CHECK_EWISE_ACC_SUPPORT arg3.ty
      let r ← L.common_nrows [arg1.ty, arg3.ty]
      let c ← L.common_ncols [arg1.ty, arg3.ty]
      let d ← L.common_domain [arg1.ty, arg3.ty]
      pure ⟨r, c, d, L.common_shape [arg1, arg3]⟩
  | .xpr arg1, .xpr arg2, .scalar _ _ => do
      LMAT_CHECK_EWISE_ACC_SUPPORT arg1.ty
      LMAT_CHECK_EWISE_ACC_SUPPORT arg2.ty
      let r ← L.common_nrows [arg1.ty, arg2.ty]
      let c ← L.common_ncols [arg1.ty, arg2.ty]
      let d ← L.common_domain [arg1.ty, arg2.ty]
      pure ⟨r, c, d, L.common_shape [arg1, arg2]⟩
  | .xpr arg1, .xpr arg2, .xpr arg3 => do
      LMAT_CHECK_EWISE_ACC_SUPPORT arg1.ty
      LMAT_CHECK_EWISE_ACC_SUPPORT arg2.ty
      LMAT_CHECK_EWISE_ACC_SUPPORT arg3.ty
      let r ← L.common_nrows [arg1.ty, arg2.ty, arg3.ty]
      let c ← L.common_ncols [arg1.ty, arg2.ty, arg3.ty]
      let d ← L.common_domain [arg1.ty, arg2.ty, arg3.ty]
      pure ⟨r, c, d, L.common_shape [arg1, arg2, arg3]⟩
  | .scalar _ _, .scalar _ _, .scalar _ _ => .error .incomplete_type

/-- The variadic template `map_expr_helper<Args...>`, specialized for one, two and three
arguments; it forwards `meta::is_mat_xpr` of each argument to the arity-specific helper.
The arity-1 helper asserts element-wise access on its argument and reads
`meta::nrows<Arg>` directly, so its argument has to be an expression type. -/
def map_expr_helper (L : MetaLib) : List Arg → Except XprError map_expr_helper_t
  | [.xpr arg] => map_expr_helper1 arg
  | [.scalar _ _] => .error .static_assert_failed
  | [arg1, arg2] => map_expr_helper2 L arg1 arg2
  | [arg1, arg2, arg3] => map_expr_helper3 L arg1 arg2 arg3
  | _ => .error .incomplete_type

/-! ## `map_expr_internal.h`: evaluation policy -/

/-- The access tag of a policy: `atags::scalar` or `atags::simd<Kind>`. -/
inductive atag where
  | scalar
  | simd (Kind : simd_kind)
  deriving DecidableEq, Repr

/-- The policy types `linear_map_policy<U>` and `percol_map_policy<U>`. -/
inductive map_policy where
  | linear_map_policy (U : atag)
  | percol_map_policy (U : atag)
  deriving DecidableEq, Repr

/-- The trait `prefers_linear<Mat>`. -/
def prefers_linear (Mat : XprMeta) : Bool :=
  Mat.supports_linear_index

/-- The trait `_prefers_simd<Mat, T, Kind, IsLinear>`: the primary template and its four
specializations for `T` one of `float`, `double` and `IsLinear` one of `true`, `false`. -/
def _prefers_simd (L : MetaLib) (Mat : XprMeta) (T : VType) (Kind : simd_kind)
    (IsLinear : Bool) : Bool :=
  match T, IsLinear with
  | .float, true =>
      let pw := L.pack_width .float Kind
      let mod_ := Int.tmod Mat.nelems pw
      Mat.is_continuous && (mod_ == 0)
  | .double, true =>
      let pw := L.pack_width .float Kind
      let mod_ := Int.tmod Mat.nelems pw
      Mat.is_continuous && (mod_ == 0)
  | .float, false =>
      let pw := L.pack_width .float Kind
      let mod_ := Int.tmod Mat.nrows pw
      Mat.is_percol_continuous && (mod_ == 0)
  | .double, false =>
      let pw := L.pack_width .float Kind
      let mod_ := Int.tmod Mat.nrows pw
      Mat.is_percol_continuous && (mod_ == 0)
  | _, _ => false

/-- The trait `are_simd_compatible_types<T1, T2>`: true for `<T, T>`, `<mask_t<T>, T>` and
`<T, mask_t<T>>`, false otherwise. -/
def are_simd_compatible_types (T1 T2 : VType) : Bool :=
  decide (T1 = T2) || decide (T1 = .mask_t T2) || decide (T2 = .mask_t T1)

/-- The trait `prefers_simd<Mat, T, Kind, IsLinear>`. -/
def prefers_simd (L : MetaLib) (Mat : XprMeta) (T : VType) (Kind : simd_kind)
    (IsLinear : Bool) : Bool :=
  let VT := Mat.value_type
  are_simd_compatible_types VT T && _prefers_simd L Mat T Kind IsLinear

/-- The members of `preferred_map_policy<S, D>`. -/
structure preferred_map_policy_t where
  vtype : VType
  prefer_linear : Bool
  prefer_simd : Bool
  atag : atag
  type : map_policy
  deriving DecidableEq, Repr

/-- The template `preferred_map_policy<S, D>`. -/
def preferred_map_policy (L : MetaLib) (S D : XprMeta) : preferred_map_policy_t :=
  let vtype := L.common_value_type S D
  let prefer_linear := prefers_linear S && prefers_linear D
  let prefer_simd :=
    prefers_simd L S vtype L.default_simd_kind prefer_linear &&
    prefers_simd L D vtype L.default_simd_kind prefer_linear
  let atag := if prefer_simd then atag.simd L.default_simd_kind else atag.scalar
  let type :=
    if prefer_linear then map_policy.linear_map_policy atag
    else map_policy.percol_map_policy atag
  ⟨vtype, prefer_linear, prefer_simd, atag, type⟩

/-- The trait `arg_prefers_linear<Arg>` with `_arg_prefers_linear<Arg, IsXpr>`. -/
def arg_prefers_linear : Arg → Bool
  | .xpr a => prefers_linear a.ty
  | .scalar _ _ => true

/-- The trait `arg_prefers_simd<Arg, Kind, IsLinear>` with `_arg_prefers_simd`. -/
def arg_prefers_simd (L : MetaLib) (a : Arg) (Kind : simd_kind) (IsLinear : Bool) : Bool :=
  match a with
  | .xpr m =>
      let T := m.ty.value_type
      prefers_simd L m.ty T Kind IsLinear
  | .scalar _ _ => true

/-- Whether a policy traverses by a single linear index. -/
def map_policy.is_linear : map_policy → Bool
  | .linear_map_policy _ => true
  | .percol_map_policy _ => false

/-- The access tag carried by a policy. -/
def map_policy.tag : map_policy → atag
  | .linear_map_policy U => U
  | .percol_map_policy U => U

/-! ## `lang_base.h`: object wrapping -/

/-- The class template `obj_wrapper<T, IsEmbed>`: the `false` specialization keeps a
reference `m_ref`, the `true` specialization keeps a copy `m_obj`. -/
inductive obj_wrapper (T : Type) : Bool → Type where
  | ref (m_ref : T) : obj_wrapper T false
  | obj (m_obj : T) : obj_wrapper T true

/-- The explicit constructor `obj_wrapper(const T& a)` of either specialization. -/
def obj_wrapper.wrap {T : Type} : (IsEmbed : Bool) → T → obj_wrapper T IsEmbed
  | false, a => .ref a
  | true, a => .obj a

/-- The member `get()` of either specialization. -/
def obj_wrapper.get {T : Type} {IsEmbed : Bool} : obj_wrapper T IsEmbed → T
  | .ref m_ref => m_ref
  | .obj m_obj => m_obj

/-! ## Expression types (`matrix_ewise_expr.h`, `partial_reduce.h`) -/

/-- Functor types.  `sum_fun<T>` and `type_converter<S, T>` are named by the sources;
`mul_fun<T>` is the multiplication functor behind `operator *`; `other` stands for any
further functor class, given by its argument and result types. -/
inductive FunT where
  | sum_fun (T : VType)
  | mul_fun (T : VType)
  | type_converter (S T : VType)
  | other (id : Nat) (arg1 arg2 result : VType)
  deriving DecidableEq, Repr

/-- The member typedef `Fun::result_type`. -/
def FunT.result_type : FunT → VType
  | .sum_fun T => T
  | .mul_fun T => T
  | .type_converter _ T => T
  | .other _ _ _ r => r

/-- The member typedef `Fun::first_arg_type` (`Fun::arg_type` for a unary or reduction
functor). -/
def FunT.first_arg_type : FunT → VType
  | .sum_fun T => T
  | .mul_fun T => T
  | .type_converter S _ => S
  | .other _ a _ _ => a

/-- The member typedef `Fun::second_arg_type`. -/
def FunT.second_arg_type : FunT → VType
  | .sum_fun T => T
  | .mul_fun T => T
  | .type_converter S _ => S
  | .other _ _ b _ => b

/-- The members of a `matrix_traits<Mat>` specialization. -/
structure matrix_traits_t where
  num_dimensions : Int
  compile_time_num_rows : Int
  compile_time_num_cols : Int
  is_readonly : Bool
  value_type : VType
  deriving DecidableEq, Repr

/-- Matrix expression types.  `mat` is a matrix type defined outside these headers (a dense
matrix, a view), described by its traits. -/
inductive XprT where
  | mat (traits : matrix_traits_t)
  | const_matrix (T : VType) (CTRows CTCols : Int)
  | unary_ewise_expr (Fun : FunT) (Arg : XprT) (IsEmbed : Bool)
  | binary_ewise_expr (Fun : FunT) (Arg1 Arg2 : XprT) (IsEmbed1 IsEmbed2 : Bool)
  | colwise_reduce_expr (Fun : FunT) (Arg : XprT) (IsEmbed : Bool)
  | rowwise_reduce_expr (Fun : FunT) (Arg : XprT) (IsEmbed : Bool)
  deriving DecidableEq, Repr

/-- Modelled from the spec: the compile-time extent shared by two operands
(`binary_ct_rows`, `binary_ct_cols` of `matrix_expr_base.h`, not in the sources): extents
are equal or one side is dynamic (`0`), and the result is the known one. -/
def binary_ct_dim (a b : Int) : Int :=
  if a = 0 then b else a

/-- The specializations of `matrix_traits` for the four node classes of
`matrix_ewise_expr.h` and `partial_reduce.h`.  The traits of `const_matrix<T, M, N>` are
modelled from the spec: an `M × N` read-only matrix of `T`. -/
def matrix_traits : XprT → matrix_traits_t
  | .mat traits => traits
  | .const_matrix T CTRows CTCols => ⟨2, CTRows, CTCols, true, T⟩
  | .unary_ewise_expr Fun Arg _ =>
      ⟨2, (matrix_traits Arg).compile_time_num_rows, (matrix_traits Arg).compile_time_num_cols,
        true, Fun.result_type⟩
  | .binary_ewise_expr Fun Arg1 Arg2 _ _ =>
      ⟨2, binary_ct_dim (matrix_traits Arg1).compile_time_num_rows
            (matrix_traits Arg2).compile_time_num_rows,
          binary_ct_dim (matrix_traits Arg1).compile_time_num_cols
            (matrix_traits Arg2).compile_time_num_cols,
        true, Fun.result_type⟩
  | .colwise_reduce_expr Fun Arg _ =>
      ⟨2, 1, (matrix_traits Arg).compile_time_num_cols, true, Fun.result_type⟩
  | .rowwise_reduce_expr Fun Arg _ =>
      ⟨2, (matrix_traits Arg).compile_time_num_rows, 1, true, Fun.result_type⟩

/-- The constant `ct_rows<Arg>::value`. -/
def ct_rows (Arg : XprT) : Int := (matrix_traits Arg).compile_time_num_rows

/-- The constant `ct_cols<Arg>::value`. -/
def ct_cols (Arg : XprT) : Int := (matrix_traits Arg).compile_time_num_cols

/-- The type map `unary_ewise_expr_map<Fun, Arg, EmbedArg>::type`. -/
def unary_ewise_expr_map (Fun : FunT) (Arg : XprT) (EmbedArg : Bool) : XprT :=
  .unary_ewise_expr Fun Arg EmbedArg

/-- The type map `binary_ewise_expr_map<Fun, Arg1, Arg2, EmbedArg1, EmbedArg2>::type`. -/
def binary_ewise_expr_map (Fun : FunT) (Arg1 Arg2 : XprT) (EmbedArg1 EmbedArg2 : Bool) :
    XprT :=
  .binary_ewise_expr Fun Arg1 Arg2 EmbedArg1 EmbedArg2

/-- The member `binary_fix2_ewise_expr_map<Fun, Arg1, EmbedArg1>::Arg2`. -/
def binary_fix2_ewise_expr_map.Arg2 (Fun : FunT) (Arg1 : XprT) : XprT :=
  let T2 := Fun.second_arg_type
  .const_matrix T2 (ct_rows Arg1) (ct_cols Arg1)

/-- The type map `binary_fix2_ewise_expr_map<Fun, Arg1, EmbedArg1>::type`. -/
def binary_fix2_ewise_expr_map (Fun : FunT) (Arg1 : XprT) (EmbedArg1 : Bool) : XprT :=
  .binary_ewise_expr Fun Arg1 (binary_fix2_ewise_expr_map.Arg2 Fun Arg1) EmbedArg1 true

/-- The member `binary_fix1_ewise_expr_map<Fun, Arg2, EmbedArg2>::Arg1`. -/
def binary_fix1_ewise_expr_map.Arg1 (Fun : FunT) (Arg2 : XprT) : XprT :=
  let T1 := Fun.first_arg_type
  .const_matrix T1 (ct_rows Arg2) (ct_cols Arg2)

/-- The type map `binary_fix1_ewise_expr_map<Fun, Arg2, EmbedArg2>::type`. -/
def binary_fix1_ewise_expr_map (Fun : FunT) (Arg2 : XprT) (EmbedArg2 : Bool) : XprT :=
  .binary_ewise_expr Fun (binary_fix1_ewise_expr_map.Arg1 Fun Arg2) Arg2 true EmbedArg2

/-- The type map `colwise_reduce_expr_map<Fun, Arg, EmbedArg>::type`. -/
def colwise_reduce_expr_map (Fun : FunT) (Arg : XprT) (EmbedArg : Bool) : XprT :=
  .colwise_reduce_expr Fun Arg EmbedArg

/-- The type map `rowwise_reduce_expr_map<Fun, Arg, EmbedArg>::type`. -/
def rowwise_reduce_expr_map (Fun : FunT) (Arg : XprT) (EmbedArg : Bool) : XprT :=
  .rowwise_reduce_expr Fun Arg EmbedArg

/-- The type map `colwise_sum_expr_map<Arg, EmbedArg>::type`. -/
def colwise_sum_expr_map (Arg : XprT) (EmbedArg : Bool) : XprT :=
  colwise_reduce_expr_map (.sum_fun (matrix_traits Arg).value_type) Arg EmbedArg

/-- The type map `rowwise_sum_expr_map<Arg, EmbedArg>::type`. -/
def rowwise_sum_expr_map (Arg : XprT) (EmbedArg : Bool) : XprT :=
  rowwise_reduce_expr_map (.sum_fun (matrix_traits Arg).value_type) Arg EmbedArg

/-- Modelled from the spec: the type map `mul_fix2_expr_map<Arg1, EmbedArg1>::type` of
`matrix_arith.h` (not in the sources), the node type of "expression times scalar": the
scalar-fixed binary node over the multiplication functor of the operand's value type. -/
def mul_fix2_expr_map (Arg1 : XprT) (EmbedArg1 : Bool) : XprT :=
  binary_fix2_ewise_expr_map (.mul_fun (matrix_traits Arg1).value_type) Arg1 EmbedArg1

/-- The type map `colwise_mean_expr_map<Arg, EmbedArg>::type`. -/
def colwise_mean_expr_map (Arg : XprT) (EmbedArg : Bool) : XprT :=
  mul_fix2_expr_map (colwise_sum_expr_map Arg EmbedArg) true

/-- The type map `rowwise_mean_expr_map<Arg, EmbedArg>::type`. -/
def rowwise_mean_expr_map (Arg : XprT) (EmbedArg : Bool) : XprT :=
  mul_fix2_expr_map (rowwise_sum_expr_map Arg EmbedArg) true

/-! ## Expression values -/

/-- A unary element-wise functor object: its class and its call operator. -/
structure unary_functor (α : Type) where
  ty : FunT
  call : α → α

/-- A binary element-wise functor object: its class and its call operator. -/
structure binary_functor (α : Type) where
  ty : FunT
  call : α → α → α

/-- Modelled from the spec: a reduction functor object (`reduction_functors.h` is not in
the sources): its class, its declared seed value and its combine step. -/
structure reduction_functor (α : Type) where
  ty : FunT
  seed : α
  combine : α → α → α

/-- Matrix expression objects over element values of type `α`.  Each node class of
`matrix_ewise_expr.h` and `partial_reduce.h` is a constructor holding the members `m_fun`
and `m_arg` (the object handed to the `obj_wrapper<Arg, IsEmbed>` member). `mat` is a matrix
defined outside these headers, given by its traits, extents and elements; `const_matrix` is
the matrix `const_matrix<T, M, N>(m, n, v)` (modelled from the spec: `m × n`, every element
equal to `v`). -/
inductive Xpr (α : Type) where
  | mat (traits : matrix_traits_t) (nrows ncolumns : Int) (elem : Nat → Nat → α)
  | const_matrix (T : VType) (CTRows CTCols : Int) (m n : Int) (v : α)
  | unary_ewise_expr (m_fun : unary_functor α) (m_arg : Xpr α) (IsEmbed : Bool)
  | binary_ewise_expr (m_fun : binary_functor α) (m_arg1 m_arg2 : Xpr α)
      (IsEmbed1 IsEmbed2 : Bool)
  | colwise_reduce_expr (m_fun : reduction_functor α) (m_arg : Xpr α) (IsEmbed : Bool)
  | rowwise_reduce_expr (m_fun : reduction_functor α) (m_arg : Xpr α) (IsEmbed : Bool)

/-- The C++ type of an expression object. -/
def Xpr.typeOf {α : Type} : Xpr α → XprT
  | .mat traits _ _ _ => .mat traits
  | .const_matrix T CTRows CTCols _ _ _ => .const_matrix T CTRows CTCols
  | .unary_ewise_expr m_fun m_arg IsEmbed => .unary_ewise_expr m_fun.ty m_arg.typeOf IsEmbed
  | .binary_ewise_expr m_fun m_arg1 m_arg2 IsEmbed1 IsEmbed2 =>
      .binary_ewise_expr m_fun.ty m_arg1.typeOf m_arg2.typeOf IsEmbed1 IsEmbed2
  | .colwise_reduce_expr m_fun m_arg IsEmbed =>
      .colwise_reduce_expr m_fun.ty m_arg.typeOf IsEmbed
  | .rowwise_reduce_expr m_fun m_arg IsEmbed =>
      .rowwise_reduce_expr m_fun.ty m_arg.typeOf IsEmbed

/-- The conversion `static_cast<size_t>(x)` of an `index_t`. -/
def static_cast_size_t (x : Int) : Nat :=
  (x % 2 ^ 64).toNat

/-- The member `nrows()` of each node class. -/
def Xpr.nrows {α : Type} : Xpr α → Int
  | .mat _ nrows _ _ => nrows
  | .const_matrix _ _ _ m _ _ => m
  | .unary_ewise_expr _ m_arg _ => m_arg.nrows
  | .binary_ewise_expr _ m_arg1 _ _ _ => m_arg1.nrows
  | .colwise_reduce_expr _ _ _ => 1
  | .rowwise_reduce_expr _ m_arg _ => m_arg.nrows

/-- The member `ncolumns()` of each node class. -/
def Xpr.ncolumns {α : Type} : Xpr α → Int
  | .mat _ _ ncolumns _ => ncolumns
  | .const_matrix _ _ _ _ n _ => n
  | .unary_ewise_expr _ m_arg _ => m_arg.ncolumns
  | .binary_ewise_expr _ m_arg1 _ _ _ => m_arg1.ncolumns
  | .colwise_reduce_expr _ m_arg _ => m_arg.ncolumns
  | .rowwise_reduce_expr _ _ _ => 1

/-- The member `nelems()` of each node class; for a matrix defined outside these headers
it is modelled from the spec as the product of the extents. -/
def Xpr.nelems {α : Type} : Xpr α → Int
  | .mat _ nrows ncolumns _ => nrows * ncolumns
  | .const_matrix _ _ _ m n _ => m * n
  | .unary_ewise_expr _ m_arg _ => m_arg.nelems
  | .binary_ewise_expr _ m_arg1 _ _ _ => m_arg1.nelems
  | .colwise_reduce_expr _ m_arg _ => m_arg.ncolumns
  | .rowwise_reduce_expr _ m_arg _ => m_arg.nrows

/-- The member `size()` of each node class; for a matrix defined outside these headers it
is modelled from the spec as the element count. -/
def Xpr.size {α : Type} : Xpr α → Nat
  | .mat _ nrows ncolumns _ => static_cast_size_t (nrows * ncolumns)
  | .const_matrix _ _ _ m n _ => static_cast_size_t (m * n)
  | .unary_ewise_expr _ m_arg _ => m_arg.size
  | .binary_ewise_expr _ m_arg1 _ _ _ => m_arg1.size
  | .colwise_reduce_expr _ m_arg _ => static_cast_size_t m_arg.ncolumns
  | .rowwise_reduce_expr _ m_arg _ => static_cast_size_t m_arg.nrows

/-- Modelled from the spec: `check_same_size(a, b, msg)` (not in the sources): an explicit
equality check of the run-time extents that fails with a size-mismatch error. -/
def check_same_size {α : Type} (a b : Xpr α) : Except XprError Unit :=
  if a.nrows = b.nrows ∧ a.ncolumns = b.ncolumns then .ok () else .error .size_mismatch

/-- The constructor `unary_ewise_expr(fun, a)`. -/
def unary_ewise_expr.ctor {α : Type} (IsEmbed : Bool) (f : unary_functor α) (a : Xpr α) :
    Xpr α :=
  .unary_ewise_expr f a IsEmbed

/-- The constructor `binary_ewise_expr(fun, arg1, arg2)`: the members are initialised from
the arguments, then the body runs `check_same_size`; when it throws no object exists. -/
def binary_ewise_expr.ctor {α : Type} (IsEmbed1 IsEmbed2 : Bool) (f : binary_functor α)
    (arg1 arg2 : Xpr α) : Except XprError (Xpr α) := do
  check_same_size arg1 arg2
  pure (.binary_ewise_expr f arg1 arg2 IsEmbed1 IsEmbed2)

/-- The constructor `colwise_reduce_expr(fun, a)`. -/
def colwise_reduce_expr.ctor {α : Type} (IsEmbed : Bool) (f : reduction_functor α)
    (a : Xpr α) : Xpr α :=
  .colwise_reduce_expr f a IsEmbed

/-- The constructor `rowwise_reduce_expr(fun, a)`. -/
def rowwise_reduce_expr.ctor {α : Type} (IsEmbed : Bool) (f : reduction_functor α)
    (a : Xpr α) : Xpr α :=
  .rowwise_reduce_expr f a IsEmbed

/-! ## Expression construction (`ewise`, `reduce`, `sum`, `mean`) -/

/-- How an argument reaches an overloaded construction function: as an expression
(`const IMatrixXpr<Arg, T>&`), as an embedded expression (`const embed_mat<Arg, T>&`), or as a
scalar (`const T&`). -/
inductive operand (α : Type) where
  | IMatrixXpr (x : Xpr α)
  | embed_mat (x : Xpr α)
  | value (v : α)

/-- The function `embed(x)`, producing an `embed_mat`. -/
def embed {α : Type} (x : Xpr α) : operand α := .embed_mat x

/-- The two unary overloads of `ewise(fun, arg)`. -/
def ewise {α : Type} (f : unary_functor α) : operand α → Except XprError (Xpr α)
  | .IMatrixXpr arg => .ok (unary_ewise_expr.ctor false f arg)
  | .embed_mat arg => .ok (unary_ewise_expr.ctor true f arg)
  | .value _ => .error .no_matching_function

/-- The eight binary overloads of `ewise(fun, arg1, arg2)`: four over two expressions, two
with the second operand fixed to a scalar, two with the first operand fixed to a scalar. -/
def ewise2 {α : Type} (f : binary_functor α) :
    operand α → operand α → Except XprError (Xpr α)
  | .IMatrixXpr arg1, .IMatrixXpr arg2 => binary_ewise_expr.ctor false false f arg1 arg2
  | .IMatrixXpr arg1, .embed_mat arg2 => binary_ewise_expr.ctor false true f arg1 arg2
  | .embed_mat arg1, .IMatrixXpr arg2 => binary_ewise_expr.ctor true false f arg1 arg2
  | .embed_mat arg1, .embed_mat arg2 => binary_ewise_expr.ctor true true f arg1 arg2
  | .IMatrixXpr arg1, .value arg2v =>
      binary_ewise_expr.ctor false true f arg1
        (.const_matrix f.ty.second_arg_type (ct_rows arg1.typeOf) (ct_cols arg1.typeOf)
          arg1.nrows arg1.ncolumns arg2v)
  | .embed_mat arg1, .value arg2v =>
      binary_ewise_expr.ctor true true f arg1
        (.const_matrix f.ty.second_arg_type (ct_rows arg1.typeOf) (ct_cols arg1.typeOf)
          arg1.nrows arg1.ncolumns arg2v)
  | .value arg1v, .IMatrixXpr arg2 =>
      binary_ewise_expr.ctor true false f
        (.const_matrix f.ty.first_arg_type (ct_rows arg2.typeOf) (ct_cols arg2.typeOf)
          arg2.nrows arg2.ncolumns arg1v)
        arg2
  | .value arg1v, .embed_mat arg2 =>
      binary_ewise_expr.ctor true true f
        (.const_matrix f.ty.first_arg_type (ct_rows arg2.typeOf) (ct_cols arg2.typeOf)
          arg2.nrows arg2.ncolumns arg1v)
        arg2
  | .value _, .value _ => .error .no_matching_function

/-- A `return e;` in a function whose declared return type is `declared`: node classes have
no converting constructors, so the expression must already have that type. -/
def return_as {α : Type} (declared : XprT) (e : Xpr α) : Except XprError (Xpr α) :=
  if e.typeOf = declared then .ok e else .error .no_viable_conversion

/-- The function `reduce(fun, arg, colwise)`. -/
def reduce_colwise {α : Type} (f : reduction_functor α) (arg : Xpr α) : Xpr α :=
  colwise_reduce_expr.ctor false f arg

/-- The function `reduce(fun, arg, rowwise)`. -/
def reduce_rowwise {α : Type} (f : reduction_functor α) (arg : Xpr α) : Xpr α :=
  rowwise_reduce_expr.ctor false f arg

/-- Modelled from the spec: the functor object `sum_fun<T>()` (`reduction_functors.h` is
not in the sources): seed zero, combine step addition. -/
def sum_fun {α : Type} [Zero α] [Add α] (T : VType) : reduction_functor α :=
  ⟨.sum_fun T, 0, fun a b => a + b⟩

/-- Modelled from the spec: the multiplication functor object behind `operator *`
(`matrix_arith.h` is not in the sources). -/
def mul_fun {α : Type} [Mul α] (T : VType) : binary_functor α :=
  ⟨.mul_fun T, fun a b => a * b⟩

/-- Modelled from the spec: the function `math::rcp(x)`, the reciprocal of `x`. -/
def rcp {α : Type} [One α] [Div α] (x : α) : α := 1 / x

/-- Modelled from the spec: `operator *` of an embedded expression and a scalar
(`matrix_arith.h` is not in the sources), of declared type `mul_fix2_expr_map<Arg1, true>`:
the scalar-fixed element-wise node over the multiplication functor. -/
def operator_mul {α : Type} [Mul α] (arg1 : operand α) (arg2v : α) :
    Except XprError (Xpr α) :=
  match arg1 with
  | .embed_mat x =>
      ewise2 (mul_fun (matrix_traits x.typeOf).value_type) (.embed_mat x) (.value arg2v)
  | .IMatrixXpr x =>
      ewise2 (mul_fun (matrix_traits x.typeOf).value_type) (.IMatrixXpr x) (.value arg2v)
  | .value _ => .error .no_matching_function

/-- The function `sum(arg, colwise)`; `T` is deduced as the value type of `arg`. -/
def sum_colwise {α : Type} [Zero α] [Add α] (arg : Xpr α) : Except XprError (Xpr α) :=
  let T := (matrix_traits arg.typeOf).value_type
  return_as (colwise_sum_expr_map arg.typeOf false) (reduce_colwise (sum_fun T) arg)

/-- The function `sum(arg, rowwise)`; `T` is deduced as the value type of `arg`. -/
def sum_rowwise {α : Type} [Zero α] [Add α] (arg : Xpr α) : Except XprError (Xpr α) :=
  let T := (matrix_traits arg.typeOf).value_type
  return_as (rowwise_sum_expr_map arg.typeOf false) (reduce_rowwise (sum_fun T) arg)

/-- The declared return type of `mean(arg, colwise)`. -/
def mean_colwise.return_type (Arg : XprT) : XprT :=
  colwise_mean_expr_map Arg false

/-- The declared return type of `mean(arg, rowwise)`. -/
def mean_rowwise.return_type (Arg : XprT) : XprT :=
  rowwise_sum_expr_map Arg false

/-- The expression returned by the body of `mean(arg, colwise)`. -/
def mean_colwise.body {α : Type} [Zero α] [Add α] [Mul α] [One α] [Div α] [IntCast α]
    (arg : Xpr α) : Except XprError (Xpr α) := do
  let s ← sum_colwise arg
  operator_mul (embed s) (rcp ((arg.nrows : Int) : α))

/-- The expression returned by the body of `mean(arg, rowwise)`. -/
def mean_rowwise.body {α : Type} [Zero α] [Add α] [Mul α] [One α] [Div α] [IntCast α]
    (arg : Xpr α) : Except XprError (Xpr α) := do
  let s ← sum_rowwise arg
  operator_mul (embed s) (rcp ((arg.ncolumns : Int) : α))

/-- The function `mean(arg, colwise)`. -/
def mean_colwise {α : Type} [Zero α] [Add α] [Mul α] [One α] [Div α] [IntCast α]
    (arg : Xpr α) : Except XprError (Xpr α) := do
  let e ← mean_colwise.body arg
  return_as (mean_colwise.return_type arg.typeOf) e

/-- The function `mean(arg, rowwise)`. -/
def mean_rowwise {α : Type} [Zero α] [Add α] [Mul α] [One α] [Div α] [IntCast α]
    (arg : Xpr α) : Except XprError (Xpr α) := do
  let e ← mean_rowwise.body arg
  return_as (mean_rowwise.return_type arg.typeOf) e

/-! ## Evaluation -/

/-- Modelled from the spec: the full pass over the reduced axis, folding `n` values with the
combine step of the reduction functor from its seed, in index order. -/
def reduce_fold {α : Type} (f : reduction_functor α) (n : Nat) (g : Nat → α) : α :=
  (List.range n).foldl (fun acc i => f.combine acc (g i)) f.seed

/-- Modelled from the spec: the value an expression yields at position `(i, j)` when it is
read by the evaluator (`ewise_eval.h`, `matrix_ewise_eval.h` and
`bits/partial_reduce_internal.h` are not in the sources): a matrix yields its element, a
constant matrix its value, an element-wise node applies its function to the values of its
operands, a reduction node folds the reduced axis of its operand. -/
def Xpr.value_at {α : Type} : Xpr α → Nat → Nat → α
  | .mat _ _ _ elem, i, j => elem i j
  | .const_matrix _ _ _ _ _ v, _, _ => v
  | .unary_ewise_expr m_fun m_arg _, i, j => m_fun.call (m_arg.value_at i j)
  | .binary_ewise_expr m_fun m_arg1 m_arg2 _ _, i, j =>
      m_fun.call (m_arg1.value_at i j) (m_arg2.value_at i j)
  | .colwise_reduce_expr m_fun m_arg _, _, j =>
      reduce_fold m_fun m_arg.nrows.toNat (fun i => m_arg.value_at i j)
  | .rowwise_reduce_expr m_fun m_arg _, i, _ =>
      reduce_fold m_fun m_arg.ncolumns.toNat (fun j => m_arg.value_at i j)

/-- A dense destination matrix: its extents and its stored elements. -/
structure dense_matrix (α : Type) where
  nrows : Int
  ncolumns : Int
  data : Nat → Nat → α

/-- Modelled from the spec: `detail::colwise_reduce_internal::eval(fun, arg, dst)`
(`bits/partial_reduce_internal.h` is not in the sources): for each column of `arg` the fold
of that column is stored in the single row of `dst`; other cells of `dst` are untouched. -/
def colwise_reduce_internal.eval {α : Type} (f : reduction_functor α) (arg : Xpr α)
    (dst : dense_matrix α) : dense_matrix α :=
  { dst with
    data := fun i j =>
      if i = 0 ∧ j < arg.ncolumns.toNat then
        reduce_fold f arg.nrows.toNat (fun k => arg.value_at k j)
      else dst.data i j }

/-- Modelled from the spec: `detail::rowwise_reduce_internal::eval(fun, arg, dst)`
(`bits/partial_reduce_internal.h` is not in the sources): for each row of `arg` the fold of
that row is stored in the single column of `dst`; other cells of `dst` are untouched. -/
def rowwise_reduce_internal.eval {α : Type} (f : reduction_functor α) (arg : Xpr α)
    (dst : dense_matrix α) : dense_matrix α :=
  { dst with
    data := fun i j =>
      if j = 0 ∧ i < arg.nrows.toNat then
        reduce_fold f arg.ncolumns.toNat (fun k => arg.value_at i k)
      else dst.data i j }

/-- The two overloads of `evaluate_to(expr, dst)` of `partial_reduce.h`, for a column-wise
and a row-wise reduction node. -/
def evaluate_to {α : Type} (expr : Xpr α) (dst : dense_matrix α) :
    Except XprError (dense_matrix α) :=
  match expr with
  | .colwise_reduce_expr m_fun m_arg _ => .ok (colwise_reduce_internal.eval m_fun m_arg dst)
  | .rowwise_reduce_expr m_fun m_arg _ => .ok (rowwise_reduce_internal.eval m_fun m_arg dst)
  | _ => .error .no_matching_function

/-! ## `map_expr_internal.h`: value type and functor type of a map expression -/

/-- A function tag, the `FTag` template argument. -/
structure ftag where
  id : Nat
  deriving DecidableEq, Repr

/-- A functor class selected by `fun_map`. -/
structure functor_class where
  id : Nat
  deriving DecidableEq, Repr

/-- The collaborators of `fun_maps.h`, which is not in the sources: they are taken as
parameters.  Either lookup is ill-formed for types the tag does not accept. -/
structure FunLib where
  /-- The type `fun_traits<FTag, Ts...>::result_type`. -/
  fun_traits_result_type : ftag → List VType → Except XprError VType
  /-- The type `fun_map<FTag, Ts...>::type`. -/
  fun_map : ftag → List VType → Except XprError functor_class

/-- The template `map_expr_value<FTag, Args...>` with its specializations for one, two and
three arguments.  The arity-1 specialization reads `matrix_traits<Arg1>::value_type`, which
exists for expression types only. -/
def map_expr_value (F : FunLib) (FTag : ftag) : List Arg → Except XprError VType
  | [.xpr arg1] =>
      let arg1_vtype := arg1.ty.value_type
      F.fun_traits_result_type FTag [arg1_vtype]
  | [.scalar _ _] => .error .incomplete_type
  | [arg1, arg2] =>
      let arg1_vtype := arg_value_type arg1
      let arg2_vtype := arg_value_type arg2
      F.fun_traits_result_type FTag [arg1_vtype, arg2_vtype]
  | [arg1, arg2, arg3] =>
      let arg1_vtype := arg_value_type arg1
      let arg2_vtype := arg_value_type arg2
      let arg3_vtype := arg_value_type arg3
      F.fun_traits_result_type FTag [arg1_vtype, arg2_vtype, arg3_vtype]
  | _ => .error .incomplete_type

/-- The template `map_expr_fun<FTag, U, Args...>` with its specializations for one, two and
three arguments; the access tag `U` is not used by any of them. -/
def map_expr_fun (F : FunLib) (FTag : ftag) (_U : atag) :
    List Arg → Except XprError functor_class
  | [.xpr arg1] =>
      let arg1_vtype := arg1.ty.value_type
      F.fun_map FTag [arg1_vtype]
  | [.scalar _ _] => .error .incomplete_type
  | [arg1, arg2] =>
      let arg1_vtype := arg_value_type arg1
      let arg2_vtype := arg_value_type arg2
      F.fun_map FTag [arg1_vtype, arg2_vtype]
  | [arg1, arg2, arg3] =>
      let arg1_vtype := arg_value_type arg1
      let arg2_vtype := arg_value_type arg2
      let arg3_vtype := arg_value_type arg3
      F.fun_map FTag [arg1_vtype, arg2_vtype, arg3_vtype]
  | _ => .error .incomplete_type

/-! ## `map_expr_internal.h`: arg reader mapping -/

/-- Reader objects for linear traversal.  `native` is a reader of the type
`vec_reader_map<Arg, U>::type`, built by `vec_reader_map<Arg, U>::get(a)` (outside these
sources, of an abstract type `ρ`); `single_reader` is `single_reader<Arg, U>` constructed
from the scalar `a`. -/
inductive vec_reader (ρ : Type) where
  | native (r : ρ)
  | single_reader (T : VType) (U : atag) (a : Int)
  deriving DecidableEq, Repr

/-- Reader objects for per-column traversal.  `native` is a reader of the type
`multicol_reader_map<Arg, U>::type`, built by `multicol_reader_map<Arg, U>::get(a)`;
`multicol_single_reader` is `multicol_single_reader<Arg, U>` constructed from the scalar
`a`. -/
inductive multicol_reader (ρ : Type) where
  | native (r : ρ)
  | multicol_single_reader (T : VType) (U : atag) (a : Int)
  deriving DecidableEq, Repr

/-- The map `arg_vec_reader_map<Arg, U>::get(arg)` with `_arg_vec_reader_map<Arg, IsXpr, U>`,
selected through `meta::is_mat_xpr<Arg>`; `vec_reader_map_get` is the native
`vec_reader_map<Arg, U>::get`. -/
def arg_vec_reader_map.get {ρ : Type} (vec_reader_map_get : MatOperand → atag → ρ)
    (U : atag) : Arg → vec_reader ρ
  | .xpr a => .native (vec_reader_map_get a U)
  | .scalar T a => .single_reader T U a

/-- The map `arg_multicol_reader_map<Arg, U>::get(arg)` with
`_arg_multicol_reader_map<Arg, IsXpr, U>`, selected through `meta::is_mat_xpr<Arg>`;
`multicol_reader_map_get` is the native `multicol_reader_map<Arg, U>::get`. -/
def arg_multicol_reader_map.get {ρ : Type} (multicol_reader_map_get : MatOperand → atag → ρ)
    (U : atag) : Arg → multicol_reader ρ
  | .xpr a => .native (multicol_reader_map_get a U)
  | .scalar T a => .multicol_single_reader T U a

/-- Modelled from the spec: what a broadcast reader holding `v` yields for one request
(`map_accessors.h` is not in the sources): one scalar under the scalar kind, one lane of `W`
values under a SIMD kind of lane width `W`, every value being `v` whatever the position. -/
def broadcast_yield (W : Nat) (U : atag) (v : Int) : List Int :=
  match U with
  | .scalar => [v]
  | .simd _ => List.replicate W v

/-- Modelled from the spec: a request at linear position `i` to a linear reader; a native
reader answers through `native_read`, a broadcast reader ignores the position. -/
def vec_reader.read {ρ : Type} (native_read : ρ → Nat → List Int) (W : Nat) :
    vec_reader ρ → Nat → List Int
  | .native r, i => native_read r i
  | .single_reader _ U a, _ => broadcast_yield W U a

/-- Modelled from the spec: a request at row `i` of column `j` to a per-column reader; a
native reader answers through `native_read`, a broadcast reader ignores the position. -/
def multicol_reader.read {ρ : Type} (native_read : ρ → Nat → Nat → List Int) (W : Nat) :
    multicol_reader ρ → Nat → Nat → List Int
  | .native r, i, j => native_read r i j
  | .multicol_single_reader _ U a, _, _ => broadcast_yield W U a

/-! ## `matrix_ewise_expr.h`: node accessors and conversion expression -/

/-- The accessor `arg()` of a unary or reduction node: `m_arg.get()` on the
`obj_wrapper<Arg, IsEmbed>` member that the constructor initialised from its argument. -/
def Xpr.arg {α : Type} : Xpr α → Option (Xpr α)
  | .unary_ewise_expr _ m_arg IsEmbed => some (obj_wrapper.wrap IsEmbed m_arg).get
  | .colwise_reduce_expr _ m_arg IsEmbed => some (obj_wrapper.wrap IsEmbed m_arg).get
  | .rowwise_reduce_expr _ m_arg IsEmbed => some (obj_wrapper.wrap IsEmbed m_arg).get
  | _ => none

/-- The accessor `first_arg()` of a binary node: `m_arg1.get()`. -/
def Xpr.first_arg {α : Type} : Xpr α → Option (Xpr α)
  | .binary_ewise_expr _ m_arg1 _ IsEmbed1 _ => some (obj_wrapper.wrap IsEmbed1 m_arg1).get
  | _ => none

/-- The accessor `second_arg()` of a binary node: `m_arg2.get()`. -/
def Xpr.second_arg {α : Type} : Xpr α → Option (Xpr α)
  | .binary_ewise_expr _ _ m_arg2 _ IsEmbed2 => some (obj_wrapper.wrap IsEmbed2 m_arg2).get
  | _ => none

/-- Modelled from the spec: conversions between value types on the carrier `α`
(`type_converter` is not in the sources): `static_cast S T x` converts `x` from `S` to `T`,
and converting to the type a value already has returns it unchanged. -/
structure conversions (α : Type) where
  static_cast : VType → VType → α → α
  static_cast_self : ∀ (S : VType) (x : α), static_cast S S x = x

/-- Modelled from the spec: the functor object `type_converter<S, T>()`, whose call operator
converts its argument from `S` to `T`. -/
def type_converter {α : Type} (C : conversions α) (S T : VType) : unary_functor α :=
  ⟨.type_converter S T, C.static_cast S T⟩

/-- The type map `cast_expr_map<SMat, T, EmbedArg>::type`. -/
def cast_expr_map (SMat : XprT) (T : VType) (EmbedArg : Bool) : XprT :=
  let S := (matrix_traits SMat).value_type
  unary_ewise_expr_map (.type_converter S T) SMat EmbedArg

/-- The static member `cast_expr_map<SMat, T, EmbedArg>::get(sexpr)`: it returns
`ewise(type_converter<S, T>(), sexpr.derived())` as a `type`. -/
def cast_expr_map.get {α : Type} (C : conversions α) (T : VType) (EmbedArg : Bool)
    (sexpr : Xpr α) : Except XprError (Xpr α) := do
  let S := (matrix_traits sexpr.typeOf).value_type
  let e ← ewise (type_converter C S T) (.IMatrixXpr sexpr)
  return_as (cast_expr_map sexpr.typeOf T EmbedArg) e

/-- The two overloads of `cast(sexpr, type<T>())`.  The first returns
`ewise(type_converter<S, T>(), sexpr.derived())` as `cast_expr_map<SMat, T, false>::type`;
the second returns `ewise(type_converter<S, T>(), sexpr.get())`, where `sexpr.get()` is the
wrapped expression itself, as `cast_expr_map<SMat, T, true>::type`. -/
def cast {α : Type} (C : conversions α) : operand α → VType → Except XprError (Xpr α)
  | .IMatrixXpr sexpr, T => do
      let S := (matrix_traits sexpr.typeOf).value_type
      let e ← ewise (type_converter C S T) (.IMatrixXpr sexpr)
      return_as (cast_expr_map sexpr.typeOf T false) e
  | .embed_mat sexpr, T => do
      let S := (matrix_traits sexpr.typeOf).value_type
      let e ← ewise (type_converter C S T) (.IMatrixXpr sexpr)
      return_as (cast_expr_map sexpr.typeOf T true) e
  | .value _, _ => .error .no_matching_function

/-! ## Element reads that precede the outcome of a construction -/

/-- The expression operands of an operand list, in their original left-to-right order. -/
def expression_operands : List Arg → List MatOperand
  | [] => []
  | .xpr a :: rest => a :: expression_operands rest
  | .scalar _ _ :: rest => expression_operands rest

/-- Resolution as the specification words it for two or more expression operands: the
common compile-time extents, the common domain and the common run-time shape of the given
expression operands, and of nothing else. -/
def common_resolution (L : MetaLib) (xs : List MatOperand) :
    Except XprError map_expr_helper_t := do
  let r ← L.common_nrows (xs.map (fun x => x.ty))
  let c ← L.common_ncols (xs.map (fun x => x.ty))
  let d ← L.common_domain (xs.map (fun x => x.ty))
  pure ⟨r, c, d, L.common_shape xs⟩

/-- Modelled from the spec: the common compile-time extent of a list of extents
(`matrix_properties.h` is not in the sources): extents are pairwise equal or dynamic
(`0`); an incompatibility is a build failure. -/
def common_ct_dim : List Int → Except XprError Int
  | [] => .error .incomplete_type
  | [a] => .ok a
  | a :: rest => do
      let b ← common_ct_dim rest
      if a = 0 then pure b
      else if b = 0 ∨ a = b then pure a
      else .error .incompatible_operands

/-- Modelled from the spec: the common domain of a list of domains: they have to agree. -/
def common_domain_of : List domain_tag → Except XprError domain_tag
  | [] => .error .incomplete_type
  | [a] => .ok a
  | a :: rest => do
      let b ← common_domain_of rest
      if a = b then pure a else .error .incompatible_operands

/-- Modelled from the spec: the common run-time shape of a list of operands: run-time
extents have to be pairwise equal, otherwise the call fails with a size mismatch. -/
def common_shape_of : List MatOperand → Except XprError matrix_shape
  | [] => .error .incomplete_type
  | [a] => .ok a.shape
  | a :: rest => do
      let s ← common_shape_of rest
      if a.shape = s then pure s else .error .size_mismatch

/-- Modelled from the spec: a concrete library instance: common extents, domain and shape
as above, the value type of the source as common value type, and the lane widths of a
128-bit SIMD kind (four `float` lanes, two `double` lanes). -/
def sse_lib : MetaLib where
  common_nrows := fun l => common_ct_dim (l.map (fun x => x.nrows))
  common_ncols := fun l => common_ct_dim (l.map (fun x => x.ncols))
  common_domain := fun l => common_domain_of (l.map (fun x => x.domain))
  common_shape := common_shape_of
  common_value_type := fun S _ => S.value_type
  pack_width := fun T _ =>
    match T with
    | .float => 4
    | .double => 2
    | _ => 1
  default_simd_kind := ⟨0⟩

/-- A dynamically sized, contiguous `double` matrix type. -/
def dyn_double : XprMeta :=
  ⟨.double, 0, 0, 0, ⟨0⟩, true, true, true, true⟩

/-- A statically sized `2 × 3` contiguous `double` matrix type. -/
def mat23_double : XprMeta :=
  ⟨.double, 2, 3, 6, ⟨0⟩, true, true, true, true⟩

/-- An operand of type `dyn_double` with run-time shape `2 × 3`. -/
def opnd23 : MatOperand := ⟨dyn_double, ⟨2, 3⟩⟩

/-- An operand of type `mat23_double`. -/
def opnd23s : MatOperand := ⟨mat23_double, ⟨2, 3⟩⟩

/-- The `3 × 2` matrix with rows `(1, 2)`, `(3, 4)`, `(5, 6)` over the rationals. -/
def mat32 : Xpr ℚ :=
  .mat ⟨2, 3, 2, false, .double⟩ 3 2 (fun i j => (2 * i + j + 1 : ℕ))

/-- Normalization of an operand type as the specification words it: an expression operand
contributes its element type, a scalar operand contributes its own type. -/
def normalized_type (a : Arg) : VType :=
  match a with
  | .xpr x => x.ty.value_type
  | .scalar T _ => T

/-- A statically sized `8 × 1` contiguous matrix type whose element type is the mask type
of `float`. -/
def mask8_float : XprMeta :=
  ⟨.mask_t .float, 8, 1, 8, ⟨0⟩, true, true, true, true⟩

/-- A statically sized `4 × 3` `float` view whose columns are contiguous but strided
relative to each other: per-column continuous, not continuous, no linear indexing. -/
def strided43_float : XprMeta :=
  ⟨.float, 4, 3, 12, ⟨0⟩, true, false, false, true⟩

/-- A statically sized `8 × 1` contiguous `int32` matrix type. -/
def int8 : XprMeta :=
  ⟨.int32, 8, 1, 8, ⟨0⟩, true, true, true, true⟩

/-- Resolution as the specification words it for a non-empty set of expression operands:
a single expression operand gives its own extents, domain and shape; two or more give the
common ones. -/
def resolution_of_expressions (L : MetaLib) :
    List MatOperand → Except XprError map_expr_helper_t
  | [] => .error .incomplete_type
  | [x] => .ok ⟨x.ty.nrows, x.ty.ncols, x.ty.domain, .ok x.shape⟩
  | xs => common_resolution L xs

/-- A library whose common extents, domain and shape always exist. -/
def total_lib : MetaLib where
  common_nrows := fun _ => .ok 0
  common_ncols := fun _ => .ok 0
  common_domain := fun _ => .ok ⟨0⟩
  common_shape := fun _ => .ok ⟨0, 0⟩
  common_value_type := fun S _ => S.value_type
  pack_width := fun _ _ => 1
  default_simd_kind := ⟨0⟩

/-- The `0 × 3` matrix over the rationals: no rows, three columns. -/
def mat03 : Xpr ℚ :=
  .mat ⟨2, 0, 3, false, .double⟩ 0 3 (fun _ _ => 0)

/-- An operand of type `dyn_double` with run-time shape `3 × 5`. -/
def opnd35 : MatOperand := ⟨dyn_double, ⟨3, 5⟩⟩

/-! ## Properties -/

/-- The constructor of the binary node succeeds on operands of equal run-time extents. -/
theorem binary_ctor_ok {α : Type} (e1 e2 : Bool) (f : binary_functor α) (a b : Xpr α)
    (hr : a.nrows = b.nrows) (hc : a.ncolumns = b.ncolumns) :
    binary_ewise_expr.ctor e1 e2 f a b = .ok (.binary_ewise_expr f a b e1 e2) := by
  simp [binary_ewise_expr.ctor, check_same_size, hr, hc, bind, Except.bind, pure, Except.pure]

/-- Folding with the sum functor from its seed adds up the values in index order. -/
theorem reduce_fold_sum_fun {α : Type} [AddCommMonoid α] (T : VType) (n : Nat)
    (g : Nat → α) : reduce_fold (sum_fun T) n g = ∑ i ∈ Finset.range n, g i := by
  induction n with
  | zero => simp [reduce_fold, sum_fun]
  | succ n ih =>
    unfold reduce_fold at ih ⊢
    rw [List.range_succ, List.foldl_append, ih, Finset.sum_range_succ]
    simp [sum_fun]

/-- The node built by `sum(arg, colwise)`. -/
theorem sum_colwise_node {α : Type} [Zero α] [Add α] (arg : Xpr α) :
    sum_colwise arg
      = .ok (.colwise_reduce_expr (sum_fun (matrix_traits arg.typeOf).value_type) arg false) := by
  simp [sum_colwise, return_as, reduce_colwise, colwise_reduce_expr.ctor, Xpr.typeOf,
    colwise_sum_expr_map, colwise_reduce_expr_map, sum_fun]

/-- The node built by `sum(arg, rowwise)`. -/
theorem sum_rowwise_node {α : Type} [Zero α] [Add α] (arg : Xpr α) :
    sum_rowwise arg
      = .ok (.rowwise_reduce_expr (sum_fun (matrix_traits arg.typeOf).value_type) arg false) := by
  simp [sum_rowwise, return_as, reduce_rowwise, rowwise_reduce_expr.ctor, Xpr.typeOf,
    rowwise_sum_expr_map, rowwise_reduce_expr_map, sum_fun]

/-- The node built by `mean(arg, colwise)`. -/
theorem mean_colwise_node {α : Type} [Field α] (arg : Xpr α) :
    mean_colwise arg
      = .ok (.binary_ewise_expr (mul_fun (matrix_traits arg.typeOf).value_type)
          (.colwise_reduce_expr (sum_fun (matrix_traits arg.typeOf).value_type) arg false)
          (.const_matrix (matrix_traits arg.typeOf).value_type 1 (ct_cols arg.typeOf)
            1 arg.ncolumns (1 / ((arg.nrows : Int) : α)))
          true true) := by
  simp [mean_colwise, mean_colwise.body, mean_colwise.return_type, sum_colwise, return_as,
    reduce_colwise, colwise_reduce_expr.ctor, Xpr.typeOf, colwise_sum_expr_map,
    colwise_reduce_expr_map, colwise_mean_expr_map, mul_fix2_expr_map,
    binary_fix2_ewise_expr_map, binary_fix2_ewise_expr_map.Arg2, operator_mul, embed, ewise2,
    binary_ewise_expr.ctor, check_same_size, Xpr.nrows, Xpr.ncolumns, matrix_traits,
    FunT.result_type, FunT.second_arg_type, ct_rows, ct_cols, sum_fun, mul_fun, rcp,
    bind, Except.bind, pure, Except.pure]

/-- The node built by `cast(sexpr, type<T>())` on an expression passed by reference. -/
theorem cast_node {α : Type} (C : conversions α) (x : Xpr α) (T : VType) :
    cast C (.IMatrixXpr x) T
      = .ok (.unary_ewise_expr (type_converter C (matrix_traits x.typeOf).value_type T)
          x false) := by
  simp [cast, ewise, unary_ewise_expr.ctor, return_as, cast_expr_map, unary_ewise_expr_map,
    Xpr.typeOf, type_converter, bind, Except.bind]

/-- The overload of `cast` for an embedded expression returns a node of type
`unary_ewise_expr<converter, SMat, false>` where `cast_expr_map<SMat, T, true>::type` is
declared, and so has no result. -/
theorem cast_embed_mat_no_conversion {α : Type} (C : conversions α) (x : Xpr α) (T : VType) :
    cast C (.embed_mat x) T = .error .no_viable_conversion := by
  simp [cast, ewise, unary_ewise_expr.ctor, return_as, cast_expr_map, unary_ewise_expr_map,
    Xpr.typeOf, type_converter, bind, Except.bind]

/-- Every expression reports as `nelems()` the product of its `nrows()` and `ncolumns()`. -/
theorem nelems_eq_nrows_mul_ncolumns {α : Type} (x : Xpr α) :
    x.nelems = x.nrows * x.ncolumns := by
  induction x with
  | mat traits nrows ncolumns elem => rfl
  | const_matrix T CTRows CTCols m n v => rfl
  | unary_ewise_expr m_fun m_arg IsEmbed ih => exact ih
  | binary_ewise_expr m_fun m_arg1 m_arg2 IsEmbed1 IsEmbed2 ih1 _ => exact ih1
  | colwise_reduce_expr m_fun m_arg IsEmbed _ => simp [Xpr.nelems, Xpr.nrows, Xpr.ncolumns]
  | rowwise_reduce_expr m_fun m_arg IsEmbed _ => simp [Xpr.nelems, Xpr.nrows, Xpr.ncolumns]

/-- Every expression reports as `size()` its `nelems()` converted to `size_t`. -/
theorem size_eq_cast_nelems {α : Type} (x : Xpr α) :
    x.size = static_cast_size_t x.nelems := by
  induction x with
  | mat traits nrows ncolumns elem => rfl
  | const_matrix T CTRows CTCols m n v => rfl
  | unary_ewise_expr m_fun m_arg IsEmbed ih => exact ih
  | binary_ewise_expr m_fun m_arg1 m_arg2 IsEmbed1 IsEmbed2 ih1 _ => exact ih1
  | colwise_reduce_expr m_fun m_arg IsEmbed _ => rfl
  | rowwise_reduce_expr m_fun m_arg IsEmbed _ => rfl

/-- Converting a non-negative `index_t` value to `size_t` keeps its value. -/
theorem static_cast_size_t_of_nonneg (x : Int) (h0 : 0 ≤ x) (h1 : x < 2 ^ 63) :
    (static_cast_size_t x : Int) = x := by
  unfold static_cast_size_t
  have h2 : x % 2 ^ 64 = x := Int.emod_eq_of_lt h0 (by omega)
  rw [h2]
  exact Int.toNat_of_nonneg h0

/-- C1: with exactly one expression operand `X` among two or three operands, in any
position, the resolved compile-time rows and columns, the domain and the run-time shape
returned by `get_shape` are those of `X`, whatever the scalar operands are. -/
theorem C1_single_expression_operand (L : MetaLib) (X : MatOperand)
    (hX : X.ty.supports_ewise_access = true) (T1 T2 : VType) (v1 v2 : Int) :
    map_expr_helper L [.scalar T1 v1, .xpr X]
        = .ok ⟨X.ty.nrows, X.ty.ncols, X.ty.domain, .ok X.shape⟩ ∧
      map_expr_helper L [.xpr X, .scalar T1 v1]
        = .ok ⟨X.ty.nrows, X.ty.ncols, X.ty.domain, .ok X.shape⟩ ∧
      map_expr_helper L [.scalar T1 v1, .scalar T2 v2, .xpr X]
        = .ok ⟨X.ty.nrows, X.ty.ncols, X.ty.domain, .ok X.shape⟩ ∧
      map_expr_helper L [.scalar T1 v1, .xpr X, .scalar T2 v2]
        = .ok ⟨X.ty.nrows, X.ty.ncols, X.ty.domain, .ok X.shape⟩ ∧
      map_expr_helper L [.xpr X, .scalar T1 v1, .scalar T2 v2]
        = .ok ⟨X.ty.nrows, X.ty.ncols, X.ty.domain, .ok X.shape⟩ := by
  simp [map_expr_helper, map_expr_helper2, map_expr_helper3, LMAT_CHECK_EWISE_ACC_SUPPORT,
    hX, bind, Except.bind, pure, Except.pure]

/-- C1 at a concrete operand: a dynamically sized `double` matrix of run-time shape
`2 × 3` next to scalars of type `double` and `int32`. -/
theorem C1_single_expression_operand_witness :
    opnd23.ty.supports_ewise_access = true ∧
      (map_expr_helper sse_lib [.scalar .double 7, .xpr opnd23]
          = .ok ⟨0, 0, ⟨0⟩, .ok ⟨2, 3⟩⟩ ∧
        map_expr_helper sse_lib [.xpr opnd23, .scalar .double 7]
          = .ok ⟨0, 0, ⟨0⟩, .ok ⟨2, 3⟩⟩ ∧
        map_expr_helper sse_lib [.scalar .double 7, .scalar .int32 1, .xpr opnd23]
          = .ok ⟨0, 0, ⟨0⟩, .ok ⟨2, 3⟩⟩ ∧
        map_expr_helper sse_lib [.scalar .double 7, .xpr opnd23, .scalar .int32 1]
          = .ok ⟨0, 0, ⟨0⟩, .ok ⟨2, 3⟩⟩ ∧
        map_expr_helper sse_lib [.xpr opnd23, .scalar .double 7, .scalar .int32 1]
          = .ok ⟨0, 0, ⟨0⟩, .ok ⟨2, 3⟩⟩) :=
  ⟨rfl, C1_single_expression_operand sse_lib opnd23 rfl .double .int32 7 1⟩

/-- C2: with at least two expression operands among two or three operands, the resolver
yields the common compile-time extents, common domain and common run-time shape of exactly
the expression operands, in their original order; scalar operands take no part. -/
theorem C2_common_of_expression_operands (L : MetaLib) (args : List Arg)
    (hlen : args.length = 2 ∨ args.length = 3)
    (hxs : 2 ≤ (expression_operands args).length)
    (hacc : ∀ x ∈ expression_operands args, x.ty.supports_ewise_access = true) :
    map_expr_helper L args = common_resolution L (expression_operands args) := by
  rcases hlen with hlen | hlen
  · match args, hlen with
    | [a1, a2], _ =>
      cases a1 <;> cases a2 <;>
        simp_all [expression_operands, map_expr_helper, map_expr_helper2, common_resolution,
          LMAT_CHECK_EWISE_ACC_SUPPORT, bind, Except.bind, pure, Except.pure]
  · match args, hlen with
    | [a1, a2, a3], _ =>
      cases a1 <;> cases a2 <;> cases a3 <;>
        simp_all [expression_operands, map_expr_helper, map_expr_helper3, common_resolution,
          LMAT_CHECK_EWISE_ACC_SUPPORT, bind, Except.bind, pure, Except.pure]

/-- C2 at concrete operands: a scalar between a dynamically sized and a statically sized
`2 × 3` matrix resolves to the common shape of the two matrices. -/
theorem C2_common_of_expression_operands_witness :
    ([Arg.xpr opnd23, .scalar .float 5, .xpr opnd23s].length = 2 ∨
        [Arg.xpr opnd23, .scalar .float 5, .xpr opnd23s].length = 3) ∧
      2 ≤ (expression_operands [.xpr opnd23, .scalar .float 5, .xpr opnd23s]).length ∧
      (∀ x ∈ expression_operands [.xpr opnd23, .scalar .float 5, .xpr opnd23s],
        x.ty.supports_ewise_access = true) ∧
      map_expr_helper sse_lib [.xpr opnd23, .scalar .float 5, .xpr opnd23s]
        = common_resolution sse_lib [opnd23, opnd23s] ∧
      common_resolution sse_lib [opnd23, opnd23s] = .ok ⟨2, 3, ⟨0⟩, .ok ⟨2, 3⟩⟩ :=
  ⟨Or.inr rfl, by decide, by decide,
    C2_common_of_expression_operands sse_lib [.xpr opnd23, .scalar .float 5, .xpr opnd23s]
      (Or.inr rfl) (by decide) (by decide),
    by decide⟩

/-- C4: the scalar-fixed construction `ewise(fun, A, v)` is the node that the general
two-expression construction builds over `A` and the constant matrix of `A`'s extents filled
with `v` (likewise `ewise(fun, v, A)`), for a referenced and for an embedded `A`; the node
yields `fun(A(i, j), v)` (respectively `fun(v, A(i, j))`) at every position, and so does the
general construction over `A` and any constant matrix of `A`'s run-time extents filled with
`v`. -/
theorem C4_broadcast_is_general_path {α : Type} (f : binary_functor α) (A : Xpr α) (v : α) :
    ewise2 f (.IMatrixXpr A) (.value v)
        = ewise2 f (.IMatrixXpr A) (.embed_mat (.const_matrix f.ty.second_arg_type
            (ct_rows A.typeOf) (ct_cols A.typeOf) A.nrows A.ncolumns v)) ∧
      ewise2 f (.embed_mat A) (.value v)
        = ewise2 f (.embed_mat A) (.embed_mat (.const_matrix f.ty.second_arg_type
            (ct_rows A.typeOf) (ct_cols A.typeOf) A.nrows A.ncolumns v)) ∧
      ewise2 f (.value v) (.IMatrixXpr A)
        = ewise2 f (.embed_mat (.const_matrix f.ty.first_arg_type
            (ct_rows A.typeOf) (ct_cols A.typeOf) A.nrows A.ncolumns v)) (.IMatrixXpr A) ∧
      ewise2 f (.value v) (.embed_mat A)
        = ewise2 f (.embed_mat (.const_matrix f.ty.first_arg_type
            (ct_rows A.typeOf) (ct_cols A.typeOf) A.nrows A.ncolumns v)) (.embed_mat A) ∧
      (∃ n, ewise2 f (.IMatrixXpr A) (.value v) = .ok n ∧
        ∀ i j, n.value_at i j = f.call (A.value_at i j) v) ∧
      (∃ n, ewise2 f (.value v) (.IMatrixXpr A) = .ok n ∧
        ∀ i j, n.value_at i j = f.call v (A.value_at i j)) ∧
      (∀ (T : VType) (M N : Int), ∃ n,
        ewise2 f (.IMatrixXpr A) (.IMatrixXpr (.const_matrix T M N A.nrows A.ncolumns v))
          = .ok n ∧ ∀ i j, n.value_at i j = f.call (A.value_at i j) v) ∧
      (∀ (T : VType) (M N : Int), ∃ n,
        ewise2 f (.IMatrixXpr (.const_matrix T M N A.nrows A.ncolumns v)) (.IMatrixXpr A)
          = .ok n ∧ ∀ i j, n.value_at i j = f.call v (A.value_at i j)) := by
  refine ⟨rfl, rfl, rfl, rfl, ?_, ?_, ?_, ?_⟩
  · exact ⟨_, binary_ctor_ok false true f _ _ rfl rfl, fun _ _ => rfl⟩
  · exact ⟨_, binary_ctor_ok true false f _ _ rfl rfl, fun _ _ => rfl⟩
  · intro T M N
    exact ⟨_, binary_ctor_ok false false f _ _ rfl rfl, fun _ _ => rfl⟩
  · intro T M N
    exact ⟨_, binary_ctor_ok false false f _ _ rfl rfl, fun _ _ => rfl⟩

/-- C5: a column-wise reduction node reports `nrows = 1`, the operand's `ncolumns`,
compile-time rows `1` and the operand's compile-time columns; a row-wise reduction node
reports the operand's `nrows`, `ncolumns = 1`, the operand's compile-time rows and
compile-time columns `1`; in either ownership mode, and for the nodes built by `reduce`. -/
theorem C5_reduction_node_shape {α : Type} (f : reduction_functor α) (arg : Xpr α)
    (IsEmbed : Bool) :
    (colwise_reduce_expr.ctor IsEmbed f arg).nrows = 1 ∧
      (colwise_reduce_expr.ctor IsEmbed f arg).ncolumns = arg.ncolumns ∧
      (matrix_traits (colwise_reduce_expr.ctor IsEmbed f arg).typeOf).compile_time_num_rows = 1 ∧
      (matrix_traits (colwise_reduce_expr.ctor IsEmbed f arg).typeOf).compile_time_num_cols
        = ct_cols arg.typeOf ∧
      (rowwise_reduce_expr.ctor IsEmbed f arg).nrows = arg.nrows ∧
      (rowwise_reduce_expr.ctor IsEmbed f arg).ncolumns = 1 ∧
      (matrix_traits (rowwise_reduce_expr.ctor IsEmbed f arg).typeOf).compile_time_num_rows
        = ct_rows arg.typeOf ∧
      (matrix_traits (rowwise_reduce_expr.ctor IsEmbed f arg).typeOf).compile_time_num_cols = 1 ∧
      reduce_colwise f arg = colwise_reduce_expr.ctor false f arg ∧
      reduce_rowwise f arg = rowwise_reduce_expr.ctor false f arg :=
  ⟨rfl, rfl, rfl, rfl, rfl, rfl, rfl, rfl, rfl, rfl⟩

/-- C6: `sum(arg, colwise)` is a node of shape `1 × C`, and evaluating it into a destination
stores in row `0`, column `j` (for each `j < C`) the sum of the `R` values of column `j` of
the operand; `sum(arg, rowwise)` is a node of shape `R × 1`, and evaluating it stores in row
`i`, column `0` (for each `i < R`) the sum of the `C` values of row `i`. -/
theorem C6_sum_reduction_values {α : Type} [AddCommMonoid α] (arg : Xpr α)
    (dst : dense_matrix α) :
    (∃ s d, sum_colwise arg = .ok s ∧ evaluate_to s dst = .ok d ∧
        s.nrows = 1 ∧ s.ncolumns = arg.ncolumns ∧
        ∀ j, j < arg.ncolumns.toNat →
          d.data 0 j = ∑ i ∈ Finset.range arg.nrows.toNat, arg.value_at i j) ∧
      (∃ s d, sum_rowwise arg = .ok s ∧ evaluate_to s dst = .ok d ∧
        s.nrows = arg.nrows ∧ s.ncolumns = 1 ∧
        ∀ i, i < arg.nrows.toNat →
          d.data i 0 = ∑ j ∈ Finset.range arg.ncolumns.toNat, arg.value_at i j) := by
  constructor
  · refine ⟨reduce_colwise (sum_fun (matrix_traits arg.typeOf).value_type) arg, _,
      ?_, rfl, rfl, rfl, ?_⟩
    · simp [sum_colwise, return_as, reduce_colwise, colwise_reduce_expr.ctor, Xpr.typeOf,
        colwise_sum_expr_map, colwise_reduce_expr_map, sum_fun]
    · intro j hj
      simp only [colwise_reduce_internal.eval]
      rw [if_pos ⟨trivial, hj⟩, reduce_fold_sum_fun]
  · refine ⟨reduce_rowwise (sum_fun (matrix_traits arg.typeOf).value_type) arg, _,
      ?_, rfl, rfl, rfl, ?_⟩
    · simp [sum_rowwise, return_as, reduce_rowwise, rowwise_reduce_expr.ctor, Xpr.typeOf,
        rowwise_sum_expr_map, rowwise_reduce_expr_map, sum_fun]
    · intro i hi
      simp only [rowwise_reduce_internal.eval]
      rw [if_pos ⟨trivial, hi⟩, reduce_fold_sum_fun]

/-- C7: `mean(arg, colwise)` is the scalar-multiply node whose first operand is the
embedded node `sum(arg, colwise)` and whose scalar is the reciprocal of `T(R)`; it has shape
`1 × C` and its element in column `j` is the sum of column `j` times `1 / R`.  For the
`3 × 2` matrix with rows `(1, 2)`, `(3, 4)`, `(5, 6)` the column sums are `9`, `12` and
the column means are `3`, `4`. -/
theorem C7_colwise_mean {α : Type} [Field α] (arg : Xpr α) :
    sum_colwise arg
        = .ok (.colwise_reduce_expr (sum_fun (matrix_traits arg.typeOf).value_type) arg false) ∧
      mean_colwise arg
        = .ok (.binary_ewise_expr (mul_fun (matrix_traits arg.typeOf).value_type)
            (.colwise_reduce_expr (sum_fun (matrix_traits arg.typeOf).value_type) arg false)
            (.const_matrix (matrix_traits arg.typeOf).value_type 1 (ct_cols arg.typeOf)
              1 arg.ncolumns (1 / ((arg.nrows : Int) : α)))
            true true) ∧
      (∃ n, mean_colwise arg = .ok n ∧ n.typeOf = colwise_mean_expr_map arg.typeOf false ∧
        n.nrows = 1 ∧ n.ncolumns = arg.ncolumns ∧
        ∀ i j, n.value_at i j
          = (∑ k ∈ Finset.range arg.nrows.toNat, arg.value_at k j)
              * (1 / ((arg.nrows : Int) : α))) ∧
      (∃ s m, sum_colwise mat32 = .ok s ∧ mean_colwise mat32 = .ok m ∧
        s.value_at 0 0 = 9 ∧ s.value_at 0 1 = 12 ∧
        m.value_at 0 0 = 3 ∧ m.value_at 0 1 = 4) := by
  refine ⟨sum_colwise_node arg, mean_colwise_node arg,
    ⟨_, mean_colwise_node arg, ?_, rfl, rfl, ?_⟩,
    ⟨_, _, sum_colwise_node mat32, mean_colwise_node mat32, ?_, ?_, ?_, ?_⟩⟩
  · simp [Xpr.typeOf, colwise_sum_expr_map, colwise_reduce_expr_map, colwise_mean_expr_map,
      mul_fix2_expr_map, binary_fix2_ewise_expr_map, binary_fix2_ewise_expr_map.Arg2,
      matrix_traits, FunT.result_type, FunT.second_arg_type, ct_rows, ct_cols, sum_fun, mul_fun]
  · intro i j
    simp only [Xpr.value_at, reduce_fold_sum_fun]
    rfl
  · simp only [Xpr.value_at, reduce_fold_sum_fun]
    norm_num [mat32, Xpr.nrows, Finset.sum_range_succ, show Int.toNat 3 = 3 from rfl]
  · simp only [Xpr.value_at, reduce_fold_sum_fun]
    norm_num [mat32, Xpr.nrows, Finset.sum_range_succ, show Int.toNat 3 = 3 from rfl]
  · simp only [Xpr.value_at, reduce_fold_sum_fun]
    norm_num [mat32, Xpr.nrows, Finset.sum_range_succ, mul_fun, show Int.toNat 3 = 3 from rfl]
  · simp only [Xpr.value_at, reduce_fold_sum_fun]
    norm_num [mat32, Xpr.nrows, Finset.sum_range_succ, mul_fun, show Int.toNat 3 = 3 from rfl]

/-- C8: the expression returned by the body of `mean(arg, rowwise)` is the scalar-multiply
node over `sum(arg, rowwise)` with scalar `1 / T(C)`, of type `rowwise_mean_expr_map`, but
the function is declared to return `rowwise_sum_expr_map<Arg, false>::type`, the bare
row-wise sum node: this differs from `rowwise_mean_expr_map<Arg, false>::type`, so the
returned node has no conversion to the declared type, whereas `mean(arg, colwise)` is
declared with `colwise_mean_expr_map`. -/
theorem C8_rowwise_mean_declared_as_sum {α : Type} [Field α] (arg : Xpr α) :
    mean_rowwise.body arg
        = .ok (.binary_ewise_expr (mul_fun (matrix_traits arg.typeOf).value_type)
            (.rowwise_reduce_expr (sum_fun (matrix_traits arg.typeOf).value_type) arg false)
            (.const_matrix (matrix_traits arg.typeOf).value_type (ct_rows arg.typeOf) 1
              arg.nrows 1 (1 / ((arg.ncolumns : Int) : α)))
            true true) ∧
      (∃ n, mean_rowwise.body arg = .ok n ∧
        n.typeOf = rowwise_mean_expr_map arg.typeOf false ∧
        n.typeOf ≠ mean_rowwise.return_type arg.typeOf) ∧
      mean_rowwise.return_type arg.typeOf = rowwise_sum_expr_map arg.typeOf false ∧
      mean_rowwise.return_type arg.typeOf ≠ rowwise_mean_expr_map arg.typeOf false ∧
      mean_colwise.return_type arg.typeOf = colwise_mean_expr_map arg.typeOf false ∧
      mean_rowwise arg = .error .no_viable_conversion ∧
      mean_rowwise mat32 = .error .no_viable_conversion := by
  have hb : ∀ {β : Type} [Field β] (a : Xpr β), mean_rowwise.body a
      = .ok (.binary_ewise_expr (mul_fun (matrix_traits a.typeOf).value_type)
          (.rowwise_reduce_expr (sum_fun (matrix_traits a.typeOf).value_type) a false)
          (.const_matrix (matrix_traits a.typeOf).value_type (ct_rows a.typeOf) 1
            a.nrows 1 (1 / ((a.ncolumns : Int) : β)))
          true true) := by
    intro β _ a
    simp [mean_rowwise.body, sum_rowwise, return_as,
      reduce_rowwise, rowwise_reduce_expr.ctor, Xpr.typeOf, rowwise_sum_expr_map,
      rowwise_reduce_expr_map, operator_mul, embed, ewise2,
      binary_ewise_expr.ctor, check_same_size, Xpr.nrows, Xpr.ncolumns, matrix_traits,
      FunT.result_type, FunT.second_arg_type, ct_rows, ct_cols, sum_fun, mul_fun, rcp,
      bind, Except.bind, pure, Except.pure]
  have hne : ∀ A : XprT, mean_rowwise.return_type A ≠ rowwise_mean_expr_map A false := by
    intro A
    simp [mean_rowwise.return_type, rowwise_sum_expr_map, rowwise_reduce_expr_map,
      rowwise_mean_expr_map, mul_fix2_expr_map, binary_fix2_ewise_expr_map]
  have ht : ∀ {β : Type} [Field β] (a : Xpr β),
      (Xpr.binary_ewise_expr (mul_fun (matrix_traits a.typeOf).value_type)
          (.rowwise_reduce_expr (sum_fun (matrix_traits a.typeOf).value_type) a false)
          (.const_matrix (matrix_traits a.typeOf).value_type (ct_rows a.typeOf) 1
            a.nrows 1 (1 / ((a.ncolumns : Int) : β)))
          true true).typeOf = rowwise_mean_expr_map a.typeOf false := by
    intro β _ a
    simp [Xpr.typeOf, rowwise_sum_expr_map, rowwise_reduce_expr_map, rowwise_mean_expr_map,
      mul_fix2_expr_map, binary_fix2_ewise_expr_map, binary_fix2_ewise_expr_map.Arg2,
      matrix_traits, FunT.result_type, FunT.second_arg_type, ct_rows, ct_cols, sum_fun, mul_fun]
  have hr : ∀ {β : Type} [Field β] (a : Xpr β),
      mean_rowwise a = .error .no_viable_conversion := by
    intro β _ a
    have h := hne a.typeOf
    rw [← ht a] at h
    simp only [mean_rowwise, hb a, bind, Except.bind, return_as]
    rw [if_neg (fun e => h e.symm)]
  refine ⟨hb arg, ⟨_, hb arg, ht arg, ?_⟩, rfl, hne _, rfl, hr arg, hr mat32⟩
  rw [ht arg]
  exact fun e => hne _ e.symm

/-- C9: the policy chosen by `preferred_map_policy<S, D>` is a linear policy if and only if
both `S` and `D` support linear indexing; if either lacks it, the policy is the per-column
policy (with the access tag chosen by the template). -/
theorem C9_linear_iff_both_linear (L : MetaLib) (S D : XprMeta) :
    ((preferred_map_policy L S D).type.is_linear = true ↔
        (S.supports_linear_index = true ∧ D.supports_linear_index = true)) ∧
      ((S.supports_linear_index = true ∧ D.supports_linear_index = true) ↔
        (preferred_map_policy L S D).type
          = .linear_map_policy (preferred_map_policy L S D).atag) ∧
      ((S.supports_linear_index = false ∨ D.supports_linear_index = false) ↔
        (preferred_map_policy L S D).type
          = .percol_map_policy (preferred_map_policy L S D).atag) := by
  cases hS : S.supports_linear_index <;> cases hD : D.supports_linear_index <;>
    simp [preferred_map_policy, prefers_linear, map_policy.is_linear, hS, hD]

/-- C10: for a statically sized `2 × 3` contiguous `double` matrix and a SIMD kind with four
`float` lanes and two `double` lanes, the element count `6` is divisible by the lane width of
`double`, yet `prefers_simd` under linear traversal is false: the `double` specialization of
`_prefers_simd` takes the lane width of `float`.  In general the `double` specialization
tests divisibility by the `float` lane width. -/
theorem C10_double_uses_float_pack_width :
    mat23_double.value_type = .double ∧
      mat23_double.is_continuous = true ∧
      sse_lib.pack_width .float ⟨0⟩ = 4 ∧
      sse_lib.pack_width .double ⟨0⟩ = 2 ∧
      Int.tmod mat23_double.nelems (sse_lib.pack_width .double ⟨0⟩) = 0 ∧
      prefers_simd sse_lib mat23_double .double ⟨0⟩ true = false ∧
      arg_prefers_simd sse_lib (.xpr opnd23s) ⟨0⟩ true = false ∧
      (∀ (L : MetaLib) (Mat : XprMeta) (Kind : simd_kind), Mat.value_type = .double →
        (prefers_simd L Mat .double Kind true = true ↔
          (Mat.is_continuous = true ∧ Int.tmod Mat.nelems (L.pack_width .float Kind) = 0))) ∧
      (∀ (L : MetaLib) (Mat : XprMeta) (Kind : simd_kind), Mat.value_type = .float →
        (prefers_simd L Mat .float Kind true = true ↔
          (Mat.is_continuous = true ∧ Int.tmod Mat.nelems (L.pack_width .float Kind) = 0))) := by
  refine ⟨rfl, rfl, rfl, rfl, by decide, by decide, by decide, ?_, ?_⟩
  · intro L Mat Kind h
    simp [prefers_simd, _prefers_simd, are_simd_compatible_types, h]
  · intro L Mat Kind h
    simp [prefers_simd, _prefers_simd, are_simd_compatible_types, h]

/-- C11: for a statically sized `2 × 3` per-column continuous `double` matrix and a SIMD kind
with four `float` lanes and two `double` lanes, the row count `2` is divisible by the lane
width of `double`, yet `prefers_simd` under per-column traversal is false: the `double`
specialization of `_prefers_simd` takes the lane width of `float`.  For `float` the test is
per-column continuity and divisibility of the row count by the `float` lane width, and
neither full contiguity nor the element count takes part. -/
theorem C11_percol_double_uses_float_pack_width :
    mat23_double.value_type = .double ∧
      mat23_double.is_percol_continuous = true ∧
      sse_lib.pack_width .float ⟨0⟩ = 4 ∧
      sse_lib.pack_width .double ⟨0⟩ = 2 ∧
      Int.tmod mat23_double.nrows (sse_lib.pack_width .double ⟨0⟩) = 0 ∧
      prefers_simd sse_lib mat23_double .double ⟨0⟩ false = false ∧
      arg_prefers_simd sse_lib (.xpr opnd23s) ⟨0⟩ false = false ∧
      (∀ (L : MetaLib) (Mat : XprMeta) (Kind : simd_kind), Mat.value_type = .double →
        (prefers_simd L Mat .double Kind false = true ↔
          (Mat.is_percol_continuous = true ∧
            Int.tmod Mat.nrows (L.pack_width .float Kind) = 0))) ∧
      (∀ (L : MetaLib) (Mat : XprMeta) (Kind : simd_kind), Mat.value_type = .float →
        (prefers_simd L Mat .float Kind false = true ↔
          (Mat.is_percol_continuous = true ∧
            Int.tmod Mat.nrows (L.pack_width .float Kind) = 0))) ∧
      (strided43_float.is_continuous = false ∧
        prefers_simd sse_lib strided43_float .float ⟨0⟩ false = true) := by
  refine ⟨rfl, rfl, rfl, rfl, by decide, by decide, by decide, ?_, ?_, rfl, by decide⟩
  · intro L Mat Kind h
    simp [prefers_simd, _prefers_simd, are_simd_compatible_types, h]
  · intro L Mat Kind h
    simp [prefers_simd, _prefers_simd, are_simd_compatible_types, h]

/-- C12, as stated, fails: a contiguous `8 × 1` operand whose element type is the mask type of
`float`, with an element count divisible by the four `float` lanes, is not SIMD-eligible
through `arg_prefers_simd`, under either traversal. -/
theorem C12_mask_operand_not_eligible :
    mask8_float.value_type = .mask_t .float ∧
      mask8_float.is_continuous = true ∧
      Int.tmod mask8_float.nelems (sse_lib.pack_width .float ⟨0⟩) = 0 ∧
      arg_prefers_simd sse_lib (.xpr ⟨mask8_float, ⟨8, 1⟩⟩) ⟨0⟩ true = false ∧
      arg_prefers_simd sse_lib (.xpr ⟨mask8_float, ⟨8, 1⟩⟩) ⟨0⟩ false = false := by
  decide

/-- C12, amended: for a supported type `T` (`float` or `double`) the element-type condition
`are_simd_compatible_types<VT, T>` holds exactly when `VT` is `T` or `mask_t<T>`, and
`prefers_simd<Mat, T, Kind, IsLinear>` is that condition together with
`_prefers_simd<Mat, T, Kind, IsLinear>`, so a mask-typed operand can be eligible there.
Through `arg_prefers_simd`, which passes the operand's own element type as `T`, an operand
is eligible only if its element type is `float` or `double`; an operand of a mask type or
of any other element type is never eligible. -/
theorem C12_type_condition :
    (∀ VT : VType, are_simd_compatible_types VT .float = true ↔
        (VT = .float ∨ VT = .mask_t .float)) ∧
      (∀ VT : VType, are_simd_compatible_types VT .double = true ↔
        (VT = .double ∨ VT = .mask_t .double)) ∧
      (∀ (L : MetaLib) (Mat : XprMeta) (Kind : simd_kind) (IsLinear : Bool),
        prefers_simd L Mat .float Kind IsLinear = true ↔
          ((Mat.value_type = .float ∨ Mat.value_type = .mask_t .float) ∧
            _prefers_simd L Mat .float Kind IsLinear = true)) ∧
      (∀ (L : MetaLib) (Mat : XprMeta) (Kind : simd_kind) (IsLinear : Bool),
        prefers_simd L Mat .double Kind IsLinear = true ↔
          ((Mat.value_type = .double ∨ Mat.value_type = .mask_t .double) ∧
            _prefers_simd L Mat .double Kind IsLinear = true)) ∧
      prefers_simd sse_lib mask8_float .float ⟨0⟩ true = true ∧
      (∀ (L : MetaLib) (m : MatOperand) (Kind : simd_kind) (IsLinear : Bool),
        arg_prefers_simd L (.xpr m) Kind IsLinear = true →
          (m.ty.value_type = .float ∨ m.ty.value_type = .double)) ∧
      (∀ (L : MetaLib) (Mat : XprMeta) (T : VType) (Kind : simd_kind) (IsLinear : Bool),
        prefers_simd L Mat T Kind IsLinear = true →
          ((T = .float ∨ T = .double) ∧ (Mat.value_type = T ∨ Mat.value_type = .mask_t T))) ∧
      arg_prefers_simd sse_lib (.xpr ⟨int8, ⟨8, 1⟩⟩) ⟨0⟩ true = false ∧
      prefers_simd sse_lib int8 .float ⟨0⟩ true = false := by
  refine ⟨?_, ?_, ?_, ?_, by decide, ?_, ?_, by decide, by decide⟩
  · intro VT
    cases VT <;> simp [are_simd_compatible_types]
  · intro VT
    cases VT <;> simp [are_simd_compatible_types]
  · intro L Mat Kind IsLinear
    cases h : Mat.value_type <;> simp [prefers_simd, are_simd_compatible_types, h]
  · intro L Mat Kind IsLinear
    cases h : Mat.value_type <;> simp [prefers_simd, are_simd_compatible_types, h]
  · intro L m Kind IsLinear
    cases h : m.ty.value_type <;> cases IsLinear <;>
      simp [arg_prefers_simd, prefers_simd, _prefers_simd, h]
  · intro L Mat T Kind IsLinear
    cases T <;> cases IsLinear <;> cases h : Mat.value_type <;>
      simp [prefers_simd, _prefers_simd, are_simd_compatible_types, h] <;>
      intro h1 _ _ <;> exact h1

/-- C13: a scalar operand prefers linear traversal and prefers SIMD for every kind under
both traversals, so over any operand list the conjunction of `arg_prefers_linear` (of
`arg_prefers_simd`) equals the conjunction over its expression operands alone. -/
theorem C13_scalar_never_disqualifies (L : MetaLib) (T : VType) (v : Int)
    (Kind : simd_kind) (args : List Arg) :
    arg_prefers_linear (.scalar T v) = true ∧
      arg_prefers_simd L (.scalar T v) Kind true = true ∧
      arg_prefers_simd L (.scalar T v) Kind false = true ∧
      args.all arg_prefers_linear
        = (expression_operands args).all (fun x => arg_prefers_linear (.xpr x)) ∧
      (∀ IsLinear : Bool,
        args.all (fun a => arg_prefers_simd L a Kind IsLinear)
          = (expression_operands args).all
              (fun x => arg_prefers_simd L (.xpr x) Kind IsLinear)) := by
  refine ⟨rfl, rfl, rfl, ?_, ?_⟩
  · induction args with
    | nil => rfl
    | cons a rest ih =>
      cases a <;> simp [expression_operands, arg_prefers_linear, ih]
  · intro IsLinear
    induction args with
    | nil => rfl
    | cons a rest ih =>
      cases a with
      | xpr m => simp only [expression_operands, List.all_cons, ih]
      | scalar T' v' =>
        simp only [expression_operands, List.all_cons, ih]
        exact Bool.true_and _

/-- C14: `preferred_map_policy<S, D>` fixes the axis first (`prefer_linear`, from linear
indexing of `S` and `D` alone) and then the vector kind under that axis: the policy carries
the SIMD tag exactly when both `S` and `D` prefer SIMD for the common value type with
`IsLinear = prefer_linear`, the scalar tag otherwise, so it is one of the four combinations.
Under the linear axis the test of `_prefers_simd` is continuity and divisibility of the
element count by the lane width it reads, under the per-column axis per-column continuity
and divisibility of the row count; unfolded, the SIMD tag is carried exactly when the common
value type is `float` or `double`, both element types are compatible with it, and both
operands pass the test of the chosen axis. -/
theorem C14_axis_then_kind (L : MetaLib) (S D : XprMeta) :
    (preferred_map_policy L S D).vtype = L.common_value_type S D ∧
      (preferred_map_policy L S D).prefer_linear
        = (S.supports_linear_index && D.supports_linear_index) ∧
      (preferred_map_policy L S D).type.is_linear
        = (preferred_map_policy L S D).prefer_linear ∧
      (preferred_map_policy L S D).prefer_simd
        = (prefers_simd L S (L.common_value_type S D) L.default_simd_kind
              (preferred_map_policy L S D).prefer_linear &&
            prefers_simd L D (L.common_value_type S D) L.default_simd_kind
              (preferred_map_policy L S D).prefer_linear) ∧
      ((preferred_map_policy L S D).type.tag = .simd L.default_simd_kind ↔
        (prefers_simd L S (L.common_value_type S D) L.default_simd_kind
              (preferred_map_policy L S D).prefer_linear = true ∧
          prefers_simd L D (L.common_value_type S D) L.default_simd_kind
              (preferred_map_policy L S D).prefer_linear = true)) ∧
      ((preferred_map_policy L S D).type.tag = .scalar ↔
        ¬ (prefers_simd L S (L.common_value_type S D) L.default_simd_kind
              (preferred_map_policy L S D).prefer_linear = true ∧
          prefers_simd L D (L.common_value_type S D) L.default_simd_kind
              (preferred_map_policy L S D).prefer_linear = true)) ∧
      ((preferred_map_policy L S D).type = .linear_map_policy .scalar ∨
        (preferred_map_policy L S D).type = .linear_map_policy (.simd L.default_simd_kind) ∨
        (preferred_map_policy L S D).type = .percol_map_policy .scalar ∨
        (preferred_map_policy L S D).type
          = .percol_map_policy (.simd L.default_simd_kind)) ∧
      (∀ (Mat : XprMeta) (Kind : simd_kind) (T : VType), T = .float ∨ T = .double →
        (_prefers_simd L Mat T Kind true
            = (Mat.is_continuous && (Int.tmod Mat.nelems (L.pack_width .float Kind) == 0)) ∧
          _prefers_simd L Mat T Kind false
            = (Mat.is_percol_continuous &&
                (Int.tmod Mat.nrows (L.pack_width .float Kind) == 0)))) ∧
      (∀ (Mat : XprMeta) (Kind : simd_kind) (T : VType) (IsLinear : Bool),
        T ≠ .float → T ≠ .double → _prefers_simd L Mat T Kind IsLinear = false) ∧
      ((preferred_map_policy L S D).type.tag = .simd L.default_simd_kind ↔
        ((L.common_value_type S D = .float ∨ L.common_value_type S D = .double) ∧
          are_simd_compatible_types S.value_type (L.common_value_type S D) = true ∧
          are_simd_compatible_types D.value_type (L.common_value_type S D) = true ∧
          (if (S.supports_linear_index && D.supports_linear_index) = true then
            (S.is_continuous = true ∧
              Int.tmod S.nelems (L.pack_width .float L.default_simd_kind) = 0 ∧
              D.is_continuous = true ∧
              Int.tmod D.nelems (L.pack_width .float L.default_simd_kind) = 0)
          else
            (S.is_percol_continuous = true ∧
              Int.tmod S.nrows (L.pack_width .float L.default_simd_kind) = 0 ∧
              D.is_percol_continuous = true ∧
              Int.tmod D.nrows (L.pack_width .float L.default_simd_kind) = 0)))) := by
  have htag : (preferred_map_policy L S D).type.tag = .simd L.default_simd_kind ↔
      (prefers_simd L S (L.common_value_type S D) L.default_simd_kind
            (preferred_map_policy L S D).prefer_linear = true ∧
        prefers_simd L D (L.common_value_type S D) L.default_simd_kind
            (preferred_map_policy L S D).prefer_linear = true) := by
    cases hS : S.supports_linear_index <;> cases hD : D.supports_linear_index <;>
      simp only [preferred_map_policy, prefers_linear, map_policy.tag, hS, hD] <;>
      split_ifs with h <;> simp_all
  refine ⟨rfl, rfl, ?_, rfl, htag, ?_, ?_, ?_, ?_, ?_⟩
  · cases hS : S.supports_linear_index <;> cases hD : D.supports_linear_index <;>
      simp [preferred_map_policy, prefers_linear, map_policy.is_linear, hS, hD]
  · cases hS : S.supports_linear_index <;> cases hD : D.supports_linear_index <;>
      simp only [preferred_map_policy, prefers_linear, map_policy.tag, hS, hD] <;>
      split_ifs with h <;> simp_all
  · cases hS : S.supports_linear_index <;> cases hD : D.supports_linear_index <;>
      simp only [preferred_map_policy, prefers_linear, hS, hD] <;>
      split_ifs with h <;> simp
  · intro Mat Kind T hT
    rcases hT with rfl | rfl <;> exact ⟨rfl, rfl⟩
  · intro Mat Kind T IsLinear h1 h2
    cases T <;> cases IsLinear <;> simp_all [_prefers_simd]
  · rw [htag]
    have hpl : (preferred_map_policy L S D).prefer_linear
        = (S.supports_linear_index && D.supports_linear_index) := rfl
    rw [hpl]
    cases hv : L.common_value_type S D <;>
      cases hl : (S.supports_linear_index && D.supports_linear_index) <;>
      simp [prefers_simd, _prefers_simd, hv, hl] <;> tauto

/-- C15: for every function tag and every two- or three-operand combination the resolved
value type is the tag's result-type rule applied to the normalized operand types (an
expression contributes its element type, a scalar its own type); for one expression operand
it is the rule applied to the operand's element type; `map_expr_fun` looks up the functor
class by the same normalized tuple, whatever the access tag. -/
theorem C15_value_type_of_normalized_types (F : FunLib) (FTag : ftag) (U : atag)
    (a1 a2 a3 : Arg) (X : MatOperand) :
    map_expr_value F FTag [.xpr X] = F.fun_traits_result_type FTag [X.ty.value_type] ∧
      map_expr_value F FTag [a1, a2]
        = F.fun_traits_result_type FTag [normalized_type a1, normalized_type a2] ∧
      map_expr_value F FTag [a1, a2, a3]
        = F.fun_traits_result_type FTag
            [normalized_type a1, normalized_type a2, normalized_type a3] ∧
      map_expr_fun F FTag U [.xpr X] = F.fun_map FTag [X.ty.value_type] ∧
      map_expr_fun F FTag U [a1, a2]
        = F.fun_map FTag [normalized_type a1, normalized_type a2] ∧
      map_expr_fun F FTag U [a1, a2, a3]
        = F.fun_map FTag [normalized_type a1, normalized_type a2, normalized_type a3] ∧
      arg_value_type a1 = normalized_type a1 := by
  have h : ∀ a : Arg, arg_value_type a = normalized_type a := by
    intro a
    cases a <;> rfl
  refine ⟨rfl, ?_, ?_, rfl, ?_, ?_, h a1⟩
  · simp [map_expr_value, h]
  · simp [map_expr_value, h]
  · simp [map_expr_fun, h]
  · simp [map_expr_fun, h]

/-- C16: the two-operand (three-operand) resolver has no specialization, whatever the
library, exactly when every operand is a scalar; `(scalar, scalar)` and
`(scalar, scalar, scalar)` resolve to nothing, and each of the three (seven) remaining
combinations is covered: with element-wise access on its expression operands it resolves
to the resolution of those operands. -/
theorem C16_all_scalar_rejected (a1 a2 a3 : Arg) :
    ((∀ L : MetaLib, map_expr_helper L [a1, a2] = .error .incomplete_type) ↔
        (is_mat_xpr a1 = false ∧ is_mat_xpr a2 = false)) ∧
      ((∀ L : MetaLib, map_expr_helper L [a1, a2, a3] = .error .incomplete_type) ↔
        (is_mat_xpr a1 = false ∧ is_mat_xpr a2 = false ∧ is_mat_xpr a3 = false)) ∧
      (∀ (L : MetaLib) (T1 T2 T3 : VType) (v1 v2 v3 : Int),
        map_expr_helper L [.scalar T1 v1, .scalar T2 v2] = .error .incomplete_type ∧
          map_expr_helper L [.scalar T1 v1, .scalar T2 v2, .scalar T3 v3]
            = .error .incomplete_type) ∧
      (∀ L : MetaLib, (is_mat_xpr a1 || is_mat_xpr a2) = true →
        (∀ x ∈ expression_operands [a1, a2], x.ty.supports_ewise_access = true) →
        map_expr_helper L [a1, a2]
          = resolution_of_expressions L (expression_operands [a1, a2])) ∧
      (∀ L : MetaLib, (is_mat_xpr a1 || is_mat_xpr a2 || is_mat_xpr a3) = true →
        (∀ x ∈ expression_operands [a1, a2, a3], x.ty.supports_ewise_access = true) →
        map_expr_helper L [a1, a2, a3]
          = resolution_of_expressions L (expression_operands [a1, a2, a3])) := by
  refine ⟨⟨?_, ?_⟩, ⟨?_, ?_⟩, fun _ _ _ _ _ _ _ => ⟨rfl, rfl⟩, ?_, ?_⟩
  · intro h
    have h0 := h total_lib
    cases a1 with
    | xpr m1 =>
      cases a2 with
      | xpr m2 =>
        cases h1 : m1.ty.supports_ewise_access <;> cases h2 : m2.ty.supports_ewise_access <;>
          simp [map_expr_helper, map_expr_helper2, LMAT_CHECK_EWISE_ACC_SUPPORT, total_lib,
            h1, h2, bind, Except.bind, pure, Except.pure] at h0
      | scalar T2 v2 =>
        cases h1 : m1.ty.supports_ewise_access <;>
          simp [map_expr_helper, map_expr_helper2, LMAT_CHECK_EWISE_ACC_SUPPORT, total_lib,
            h1, bind, Except.bind, pure, Except.pure] at h0
    | scalar T1 v1 =>
      cases a2 with
      | xpr m2 =>
        cases h2 : m2.ty.supports_ewise_access <;>
          simp [map_expr_helper, map_expr_helper2, LMAT_CHECK_EWISE_ACC_SUPPORT, total_lib,
            h2, bind, Except.bind, pure, Except.pure] at h0
      | scalar T2 v2 => exact ⟨rfl, rfl⟩
  · rintro ⟨h1, h2⟩ L
    cases a1 <;> cases a2 <;> simp_all [is_mat_xpr, map_expr_helper, map_expr_helper2]
  · intro h
    have h0 := h total_lib
    cases a1 with
    | xpr m1 =>
      cases a2 with
      | xpr m2 =>
        cases a3 with
        | xpr m3 =>
          cases h1 : m1.ty.supports_ewise_access <;>
            cases h2 : m2.ty.supports_ewise_access <;>
            cases h3 : m3.ty.supports_ewise_access <;>
            simp [map_expr_helper, map_expr_helper3, LMAT_CHECK_EWISE_ACC_SUPPORT, total_lib,
              h1, h2, h3, bind, Except.bind, pure, Except.pure] at h0
        | scalar T3 v3 =>
          cases h1 : m1.ty.supports_ewise_access <;>
            cases h2 : m2.ty.supports_ewise_access <;>
            simp [map_expr_helper, map_expr_helper3, LMAT_CHECK_EWISE_ACC_SUPPORT, total_lib,
              h1, h2, bind, Except.bind, pure, Except.pure] at h0
      | scalar T2 v2 =>
        cases a3 with
        | xpr m3 =>
          cases h1 : m1.ty.supports_ewise_access <;>
            cases h3 : m3.ty.supports_ewise_access <;>
            simp [map_expr_helper, map_expr_helper3, LMAT_CHECK_EWISE_ACC_SUPPORT, total_lib,
              h1, h3, bind, Except.bind, pure, Except.pure] at h0
        | scalar T3 v3 =>
          cases h1 : m1.ty.supports_ewise_access <;>
            simp [map_expr_helper, map_expr_helper3, LMAT_CHECK_EWISE_ACC_SUPPORT, total_lib,
              h1, bind, Except.bind, pure, Except.pure] at h0
    | scalar T1 v1 =>
      cases a2 with
      | xpr m2 =>
        cases a3 with
        | xpr m3 =>
          cases h2 : m2.ty.supports_ewise_access <;>
            cases h3 : m3.ty.supports_ewise_access <;>
            simp [map_expr_helper, map_expr_helper3, LMAT_CHECK_EWISE_ACC_SUPPORT, total_lib,
              h2, h3, bind, Except.bind, pure, Except.pure] at h0
        | scalar T3 v3 =>
          cases h2 : m2.ty.supports_ewise_access <;>
            simp [map_expr_helper, map_expr_helper3, LMAT_CHECK_EWISE_ACC_SUPPORT, total_lib,
              h2, bind, Except.bind, pure, Except.pure] at h0
      | scalar T2 v2 =>
        cases a3 with
        | xpr m3 =>
          cases h3 : m3.ty.supports_ewise_access <;>
            simp [map_expr_helper, map_expr_helper3, LMAT_CHECK_EWISE_ACC_SUPPORT, total_lib,
              h3, bind, Except.bind, pure, Except.pure] at h0
        | scalar T3 v3 => exact ⟨rfl, rfl, rfl⟩
  · rintro ⟨h1, h2, h3⟩ L
    cases a1 <;> cases a2 <;> cases a3 <;>
      simp_all [is_mat_xpr, map_expr_helper, map_expr_helper3]
  · intro L hx hacc
    cases a1 <;> cases a2 <;>
      simp_all [is_mat_xpr, expression_operands, resolution_of_expressions, map_expr_helper,
        map_expr_helper2, common_resolution, LMAT_CHECK_EWISE_ACC_SUPPORT, bind, Except.bind,
        pure, Except.pure]
  · intro L hx hacc
    cases a1 <;> cases a2 <;> cases a3 <;>
      simp_all [is_mat_xpr, expression_operands, resolution_of_expressions, map_expr_helper,
        map_expr_helper3, common_resolution, LMAT_CHECK_EWISE_ACC_SUPPORT, bind, Except.bind,
        pure, Except.pure]

/-- C17: a unary element-wise node reports the `nrows`, `ncolumns`, `nelems` and `size` of
its operand and the operand's compile-time rows and columns, in either ownership mode;
hence `cast(x, T)` is a node with exactly the shape of `x` and value type `T`, for every
target type `T`; and the arity-1 resolver returns the operand's extents, domain and shape
unchanged (it is instantiable when the operand supports element-wise access). -/
theorem C17_unary_and_cast_preserve_shape {α : Type} (C : conversions α)
    (f : unary_functor α) (x : Xpr α) (IsEmbed : Bool) (T : VType) (L : MetaLib)
    (X : MatOperand) :
    ((unary_ewise_expr.ctor IsEmbed f x).nrows = x.nrows ∧
        (unary_ewise_expr.ctor IsEmbed f x).ncolumns = x.ncolumns ∧
        (unary_ewise_expr.ctor IsEmbed f x).nelems = x.nelems ∧
        (unary_ewise_expr.ctor IsEmbed f x).size = x.size ∧
        (matrix_traits (unary_ewise_expr.ctor IsEmbed f x).typeOf).compile_time_num_rows
          = ct_rows x.typeOf ∧
        (matrix_traits (unary_ewise_expr.ctor IsEmbed f x).typeOf).compile_time_num_cols
          = ct_cols x.typeOf) ∧
      (∃ n, cast C (.IMatrixXpr x) T = .ok n ∧
        n.nrows = x.nrows ∧ n.ncolumns = x.ncolumns ∧
        n.nelems = x.nelems ∧ n.size = x.size ∧
        ct_rows n.typeOf = ct_rows x.typeOf ∧ ct_cols n.typeOf = ct_cols x.typeOf ∧
        (matrix_traits n.typeOf).value_type = T) ∧
      map_expr_helper L [.xpr X]
        = (if X.ty.supports_ewise_access = true then
            .ok ⟨X.ty.nrows, X.ty.ncols, X.ty.domain, .ok X.shape⟩
          else .error .static_assert_failed) := by
  refine ⟨⟨rfl, rfl, rfl, rfl, rfl, rfl⟩,
    ⟨_, cast_node C x T, rfl, rfl, rfl, rfl, rfl, rfl, rfl⟩, ?_⟩
  cases h : X.ty.supports_ewise_access <;>
    simp [map_expr_helper, map_expr_helper1, LMAT_CHECK_EWISE_ACC_SUPPORT, h, bind,
      Except.bind, pure, Except.pure]

/-- C18: `get()` of an `obj_wrapper` returns the wrapped value in embedded and in referenced
mode; hence the operand accessors, `nrows`, `ncolumns`, `nelems` and `size` of a unary, a
binary, a column-wise and a row-wise reduction node are the same for every choice of the
ownership modes, and so is the outcome of the size check of the binary constructor. -/
theorem C18_ownership_mode_is_irrelevant {α : Type} (T : Type) (a : T)
    (f : unary_functor α) (g : binary_functor α) (r : reduction_functor α) (x y : Xpr α)
    (e1 e2 e1' e2' : Bool) :
    ((obj_wrapper.wrap true a).get = a ∧ (obj_wrapper.wrap false a).get = a ∧
        (obj_wrapper.obj a).get = a ∧ (obj_wrapper.ref a).get = a) ∧
      ((Xpr.unary_ewise_expr f x e1).arg = some x ∧
        (Xpr.unary_ewise_expr f x e1).nrows = (Xpr.unary_ewise_expr f x e1').nrows ∧
        (Xpr.unary_ewise_expr f x e1).ncolumns = (Xpr.unary_ewise_expr f x e1').ncolumns ∧
        (Xpr.unary_ewise_expr f x e1).nelems = (Xpr.unary_ewise_expr f x e1').nelems ∧
        (Xpr.unary_ewise_expr f x e1).size = (Xpr.unary_ewise_expr f x e1').size) ∧
      ((Xpr.binary_ewise_expr g x y e1 e2).first_arg = some x ∧
        (Xpr.binary_ewise_expr g x y e1 e2).second_arg = some y ∧
        (Xpr.binary_ewise_expr g x y e1 e2).nrows
          = (Xpr.binary_ewise_expr g x y e1' e2').nrows ∧
        (Xpr.binary_ewise_expr g x y e1 e2).ncolumns
          = (Xpr.binary_ewise_expr g x y e1' e2').ncolumns ∧
        (Xpr.binary_ewise_expr g x y e1 e2).nelems
          = (Xpr.binary_ewise_expr g x y e1' e2').nelems ∧
        (Xpr.binary_ewise_expr g x y e1 e2).size
          = (Xpr.binary_ewise_expr g x y e1' e2').size ∧
        (binary_ewise_expr.ctor e1 e2 g x y).toBool
          = (binary_ewise_expr.ctor e1' e2' g x y).toBool) ∧
      ((Xpr.colwise_reduce_expr r x e1).arg = some x ∧
        (Xpr.colwise_reduce_expr r x e1).nrows = (Xpr.colwise_reduce_expr r x e1').nrows ∧
        (Xpr.colwise_reduce_expr r x e1).ncolumns
          = (Xpr.colwise_reduce_expr r x e1').ncolumns ∧
        (Xpr.colwise_reduce_expr r x e1).nelems = (Xpr.colwise_reduce_expr r x e1').nelems ∧
        (Xpr.colwise_reduce_expr r x e1).size = (Xpr.colwise_reduce_expr r x e1').size) ∧
      ((Xpr.rowwise_reduce_expr r x e1).arg = some x ∧
        (Xpr.rowwise_reduce_expr r x e1).nrows = (Xpr.rowwise_reduce_expr r x e1').nrows ∧
        (Xpr.rowwise_reduce_expr r x e1).ncolumns
          = (Xpr.rowwise_reduce_expr r x e1').ncolumns ∧
        (Xpr.rowwise_reduce_expr r x e1).nelems = (Xpr.rowwise_reduce_expr r x e1').nelems ∧
        (Xpr.rowwise_reduce_expr r x e1).size = (Xpr.rowwise_reduce_expr r x e1').size) := by
  have hget : ∀ (β : Type) (e : Bool) (b : β), (obj_wrapper.wrap e b).get = b := by
    intro β e b
    cases e <;> rfl
  refine ⟨⟨rfl, rfl, rfl, rfl⟩, ⟨?_, rfl, rfl, rfl, rfl⟩, ⟨?_, ?_, rfl, rfl, rfl, rfl, ?_⟩,
    ⟨?_, rfl, rfl, rfl, rfl⟩, ⟨?_, rfl, rfl, rfl, rfl⟩⟩
  · simp [Xpr.arg, hget]
  · simp [Xpr.first_arg, hget]
  · simp [Xpr.second_arg, hget]
  · by_cases h : x.nrows = y.nrows ∧ x.ncolumns = y.ncolumns <;>
      simp [binary_ewise_expr.ctor, check_same_size, h, bind, Except.bind, pure, Except.pure,
        Except.toBool]
  · simp [Xpr.arg, hget]
  · simp [Xpr.arg, hget]

/-- C19: casting a matrix expression `x` to its own element type `S` gives the unary node
that applies the `S`-to-`S` converter to `x`, of type `cast_expr_map<SMat, S, false>::type`
and with the shape of `x`; read at any position it yields the value `x` yields there. -/
theorem C19_cast_to_own_type {α : Type} (C : conversions α) (x : Xpr α) :
    cast C (.IMatrixXpr x) (matrix_traits x.typeOf).value_type
        = .ok (.unary_ewise_expr
            (type_converter C (matrix_traits x.typeOf).value_type
              (matrix_traits x.typeOf).value_type) x false) ∧
      (∃ n, cast C (.IMatrixXpr x) (matrix_traits x.typeOf).value_type = .ok n ∧
        n.typeOf = cast_expr_map x.typeOf (matrix_traits x.typeOf).value_type false ∧
        (matrix_traits n.typeOf).value_type = (matrix_traits x.typeOf).value_type ∧
        n.nrows = x.nrows ∧ n.ncolumns = x.ncolumns ∧
        n.nelems = x.nelems ∧ n.size = x.size ∧
        ∀ i j, n.value_at i j = x.value_at i j) := by
  refine ⟨cast_node C x _, _, cast_node C x _, rfl, rfl, rfl, rfl, rfl, rfl, ?_⟩
  intro i j
  simp [Xpr.value_at, type_converter, C.static_cast_self]

/-- C20: both reader adapters choose the reader by the operand kind only: for an expression
operand the result is the reader built by the operand's native reader map, and requests are
answered by that reader; for a scalar operand the result is the broadcast reader holding
the scalar, which answers every request, at any position, with the held value alone (one
value under the scalar kind, a lane of `W` copies under a SIMD kind). -/
theorem C20_reader_adapters {ρ : Type} (vget mget : MatOperand → atag → ρ)
    (vread : ρ → Nat → List Int) (mread : ρ → Nat → Nat → List Int) (W : Nat) (U : atag)
    (a : MatOperand) (T : VType) (v : Int) :
    (arg_vec_reader_map.get vget U (.xpr a) = .native (vget a U) ∧
        arg_multicol_reader_map.get mget U (.xpr a) = .native (mget a U) ∧
        (∀ i, (arg_vec_reader_map.get vget U (.xpr a)).read vread W i = vread (vget a U) i) ∧
        (∀ i j, (arg_multicol_reader_map.get mget U (.xpr a)).read mread W i j
          = mread (mget a U) i j)) ∧
      (arg_vec_reader_map.get vget U (.scalar T v) = .single_reader T U v ∧
        arg_multicol_reader_map.get mget U (.scalar T v) = .multicol_single_reader T U v ∧
        (∀ i, (arg_vec_reader_map.get vget U (.scalar T v)).read vread W i
          = broadcast_yield W U v) ∧
        (∀ i j, (arg_multicol_reader_map.get mget U (.scalar T v)).read mread W i j
          = broadcast_yield W U v)) ∧
      (broadcast_yield W .scalar v = [v] ∧
        (∀ Kind, broadcast_yield W (.simd Kind) v = List.replicate W v) ∧
        (∀ y ∈ broadcast_yield W U v, y = v)) := by
  refine ⟨⟨rfl, rfl, fun _ => rfl, fun _ _ => rfl⟩, ⟨rfl, rfl, fun _ => rfl, fun _ _ => rfl⟩,
    rfl, fun _ => rfl, ?_⟩
  intro y hy
  cases U with
  | scalar => simpa [broadcast_yield] using hy
  | simd Kind =>
    simp only [broadcast_yield] at hy
    exact List.eq_of_mem_replicate hy

/-- C22: a binary element-wise node that was constructed successfully reports `nrows`,
`ncolumns`, `nelems` and `size` equal to those of its first operand and equal to those of
its second operand. -/
theorem C22_binary_node_shape_of_both {α : Type} (e1 e2 : Bool) (f : binary_functor α)
    (a b n : Xpr α) (h : binary_ewise_expr.ctor e1 e2 f a b = .ok n) :
    (n.nrows = a.nrows ∧ n.ncolumns = a.ncolumns ∧ n.nelems = a.nelems ∧ n.size = a.size) ∧
      (n.nrows = b.nrows ∧ n.ncolumns = b.ncolumns ∧ n.nelems = b.nelems ∧
        n.size = b.size) := by
  by_cases hs : a.nrows = b.nrows ∧ a.ncolumns = b.ncolumns
  · simp [binary_ewise_expr.ctor, check_same_size, hs, bind, Except.bind, pure,
      Except.pure] at h
    subst h
    have hn : a.nelems = b.nelems := by
      rw [nelems_eq_nrows_mul_ncolumns a, nelems_eq_nrows_mul_ncolumns b, hs.1, hs.2]
    have hz : a.size = b.size := by
      rw [size_eq_cast_nelems a, size_eq_cast_nelems b, hn]
    exact ⟨⟨rfl, rfl, rfl, rfl⟩, hs.1, hs.2, hn, hz⟩
  · simp [binary_ewise_expr.ctor, check_same_size, hs, bind, Except.bind, pure,
      Except.pure] at h

/-- C22 at concrete operands: the product node of the `3 × 2` matrix with rows `(1, 2)`,
`(3, 4)`, `(5, 6)` and the `3 × 2` constant matrix of `2` is constructed, and reports
three rows, two columns and six elements. -/
theorem C22_binary_node_shape_of_both_witness :
    binary_ewise_expr.ctor false true (mul_fun .double) mat32
        (.const_matrix .double 3 2 3 2 2)
      = .ok (.binary_ewise_expr (mul_fun .double) mat32 (.const_matrix .double 3 2 3 2 2)
          false true) ∧
      (((Xpr.binary_ewise_expr (mul_fun .double) mat32 (.const_matrix .double 3 2 3 2 2)
            false true).nrows = mat32.nrows ∧
          (Xpr.binary_ewise_expr (mul_fun .double) mat32 (.const_matrix .double 3 2 3 2 2)
            false true).ncolumns = mat32.ncolumns ∧
          (Xpr.binary_ewise_expr (mul_fun .double) mat32 (.const_matrix .double 3 2 3 2 2)
            false true).nelems = mat32.nelems ∧
          (Xpr.binary_ewise_expr (mul_fun .double) mat32 (.const_matrix .double 3 2 3 2 2)
            false true).size = mat32.size) ∧
        ((Xpr.binary_ewise_expr (mul_fun .double) mat32 (.const_matrix .double 3 2 3 2 2)
            false true).nrows = (Xpr.const_matrix .double 3 2 3 2 (2 : ℚ)).nrows ∧
          (Xpr.binary_ewise_expr (mul_fun .double) mat32 (.const_matrix .double 3 2 3 2 2)
            false true).ncolumns = (Xpr.const_matrix .double 3 2 3 2 (2 : ℚ)).ncolumns ∧
          (Xpr.binary_ewise_expr (mul_fun .double) mat32 (.const_matrix .double 3 2 3 2 2)
            false true).nelems = (Xpr.const_matrix .double 3 2 3 2 (2 : ℚ)).nelems ∧
          (Xpr.binary_ewise_expr (mul_fun .double) mat32 (.const_matrix .double 3 2 3 2 2)
            false true).size = (Xpr.const_matrix .double 3 2 3 2 (2 : ℚ)).size)) ∧
      (Xpr.binary_ewise_expr (mul_fun .double) mat32 (.const_matrix .double 3 2 3 2 2)
        false true).nelems = 6 :=
  ⟨binary_ctor_ok false true (mul_fun .double) mat32 (.const_matrix .double 3 2 3 2 2)
      rfl rfl,
    C22_binary_node_shape_of_both false true (mul_fun .double) mat32
      (.const_matrix .double 3 2 3 2 2) _
      (binary_ctor_ok false true (mul_fun .double) mat32 (.const_matrix .double 3 2 3 2 2)
        rfl rfl),
    by decide⟩

/-- C23: the divisibility tests of `_prefers_simd` read the compile-time element count
(linear axis) and the compile-time row count (per-column axis).  When that count is `0` the
remainder is `0` for every lane width, so for a supported type `T` eligibility is the
element-type condition together with continuity (per-column continuity) alone, and in no
case does the run-time shape of the operand take part. -/
theorem C23_zero_compile_time_extent (L : MetaLib) (Mat : XprMeta) (Kind : simd_kind)
    (T : VType) (hT : T = .float ∨ T = .double) :
    (Mat.nelems = 0 →
        (_prefers_simd L Mat T Kind true = Mat.is_continuous ∧
          prefers_simd L Mat T Kind true
            = (are_simd_compatible_types Mat.value_type T && Mat.is_continuous))) ∧
      (Mat.nrows = 0 →
        (_prefers_simd L Mat T Kind false = Mat.is_percol_continuous ∧
          prefers_simd L Mat T Kind false
            = (are_simd_compatible_types Mat.value_type T && Mat.is_percol_continuous))) ∧
      (∀ (s s' : matrix_shape) (IsLinear : Bool),
        arg_prefers_simd L (.xpr ⟨Mat, s⟩) Kind IsLinear
          = arg_prefers_simd L (.xpr ⟨Mat, s'⟩) Kind IsLinear) := by
  refine ⟨?_, ?_, fun _ _ _ => rfl⟩
  · intro h
    rcases hT with rfl | rfl <;> simp [prefers_simd, _prefers_simd, h]
  · intro h
    rcases hT with rfl | rfl <;> simp [prefers_simd, _prefers_simd, h]

/-- C23 at a concrete operand: a dynamically sized contiguous `double` matrix (compile-time
counts `0`) prefers SIMD under both axes for a kind with four `float` and two `double`
lanes, also with the run-time shape `3 × 5`, whose fifteen elements and three rows are
divisible by neither width. -/
theorem C23_zero_compile_time_extent_witness :
    (VType.double = .float ∨ VType.double = .double) ∧
      ((dyn_double.nelems = 0 →
          (_prefers_simd sse_lib dyn_double .double ⟨0⟩ true = dyn_double.is_continuous ∧
            prefers_simd sse_lib dyn_double .double ⟨0⟩ true
              = (are_simd_compatible_types dyn_double.value_type .double &&
                  dyn_double.is_continuous))) ∧
        (dyn_double.nrows = 0 →
          (_prefers_simd sse_lib dyn_double .double ⟨0⟩ false
              = dyn_double.is_percol_continuous ∧
            prefers_simd sse_lib dyn_double .double ⟨0⟩ false
              = (are_simd_compatible_types dyn_double.value_type .double &&
                  dyn_double.is_percol_continuous))) ∧
        (∀ (s s' : matrix_shape) (IsLinear : Bool),
          arg_prefers_simd sse_lib (.xpr ⟨dyn_double, s⟩) ⟨0⟩ IsLinear
            = arg_prefers_simd sse_lib (.xpr ⟨dyn_double, s'⟩) ⟨0⟩ IsLinear)) ∧
      dyn_double.nelems = 0 ∧ dyn_double.nrows = 0 ∧
      arg_prefers_simd sse_lib (.xpr opnd35) ⟨0⟩ true = true ∧
      arg_prefers_simd sse_lib (.xpr opnd35) ⟨0⟩ false = true :=
  ⟨Or.inr rfl, C23_zero_compile_time_extent sse_lib dyn_double ⟨0⟩ .double (Or.inr rfl),
    rfl, rfl, by decide, by decide⟩

/-- C24: both scalar-fixed constructions `ewise(fun, A, v)` and `ewise(fun, v, A)` succeed for
every expression `A`, functor and scalar, for a referenced and for an embedded `A`: the
constant operand has `A`'s `nrows` and `ncolumns`, and the node reports `A`'s `nrows`,
`ncolumns`, `nelems` and `size`. -/
theorem C24_fixed_construction_succeeds {α : Type} (f : binary_functor α) (A : Xpr α)
    (v : α) :
    (∃ n K, ewise2 f (.IMatrixXpr A) (.value v) = .ok n ∧ n.second_arg = some K ∧
        K.nrows = A.nrows ∧ K.ncolumns = A.ncolumns ∧
        n.nrows = A.nrows ∧ n.ncolumns = A.ncolumns ∧ n.nelems = A.nelems ∧
        n.size = A.size) ∧
      (∃ n K, ewise2 f (.embed_mat A) (.value v) = .ok n ∧ n.second_arg = some K ∧
        K.nrows = A.nrows ∧ K.ncolumns = A.ncolumns ∧
        n.nrows = A.nrows ∧ n.ncolumns = A.ncolumns ∧ n.nelems = A.nelems ∧
        n.size = A.size) ∧
      (∃ n K, ewise2 f (.value v) (.IMatrixXpr A) = .ok n ∧ n.first_arg = some K ∧
        K.nrows = A.nrows ∧ K.ncolumns = A.ncolumns ∧
        n.nrows = A.nrows ∧ n.ncolumns = A.ncolumns ∧ n.nelems = A.nelems ∧
        n.size = A.size) ∧
      (∃ n K, ewise2 f (.value v) (.embed_mat A) = .ok n ∧ n.first_arg = some K ∧
        K.nrows = A.nrows ∧ K.ncolumns = A.ncolumns ∧
        n.nrows = A.nrows ∧ n.ncolumns = A.ncolumns ∧ n.nelems = A.nelems ∧
        n.size = A.size) := by
  have hn : A.nrows * A.ncolumns = A.nelems := (nelems_eq_nrows_mul_ncolumns A).symm
  have hz : static_cast_size_t (A.nrows * A.ncolumns) = A.size := by
    rw [size_eq_cast_nelems A, hn]
  refine ⟨⟨_, _, binary_ctor_ok false true f _ _ rfl rfl, rfl, rfl, rfl, rfl, rfl, rfl, rfl⟩,
    ⟨_, _, binary_ctor_ok true true f _ _ rfl rfl, rfl, rfl, rfl, rfl, rfl, rfl, rfl⟩,
    ⟨_, _, binary_ctor_ok true false f _ _ rfl rfl, rfl, rfl, rfl, rfl, rfl, hn, hz⟩,
    ⟨_, _, binary_ctor_ok true true f _ _ rfl rfl, rfl, rfl, rfl, rfl, rfl, hn, hz⟩⟩

/-- C25: with two expression operands `X`, `Y` and a scalar, the three-operand resolver
gives one and the same result for `(s, X, Y)`, `(X, s, Y)` and `(X, Y, s)`, namely the
result of the two-operand resolver for `(X, Y)`; with a single expression operand `X` and
two scalars, in any position, it gives the result of the one-operand resolver for `X`. -/
theorem C25_scalar_positions_irrelevant (L : MetaLib) (X Y : MatOperand) (T T' : VType)
    (v v' : Int) :
    map_expr_helper L [.scalar T v, .xpr X, .xpr Y] = map_expr_helper L [.xpr X, .xpr Y] ∧
      map_expr_helper L [.xpr X, .scalar T v, .xpr Y] = map_expr_helper L [.xpr X, .xpr Y] ∧
      map_expr_helper L [.xpr X, .xpr Y, .scalar T v] = map_expr_helper L [.xpr X, .xpr Y] ∧
      map_expr_helper L [.scalar T v, .scalar T' v', .xpr X] = map_expr_helper L [.xpr X] ∧
      map_expr_helper L [.scalar T v, .xpr X, .scalar T' v'] = map_expr_helper L [.xpr X] ∧
      map_expr_helper L [.xpr X, .scalar T v, .scalar T' v'] = map_expr_helper L [.xpr X] ∧
      map_expr_helper L [.xpr X] = map_expr_helper1 X ∧
      map_expr_helper L [.xpr X, .xpr Y] = map_expr_helper2 L (.xpr X) (.xpr Y) :=
  ⟨rfl, rfl, rfl, rfl, rfl, rfl, rfl, rfl⟩

/-- C26: for an operand with non-negative extents (in the range of `index_t`), a column-wise
reduction node has `nelems = nrows × ncolumns`, `nelems` equal to the operand's column
count and `size = nelems`; a row-wise reduction node has `nelems = nrows × ncolumns`,
`nelems` equal to the operand's row count and `size = nelems`. -/
theorem C26_reduction_node_element_count {α : Type} (f : reduction_functor α) (arg : Xpr α)
    (IsEmbed : Bool) (hr0 : 0 ≤ arg.nrows) (hc0 : 0 ≤ arg.ncolumns)
    (hr : arg.nrows < 2 ^ 63) (hc : arg.ncolumns < 2 ^ 63) :
    ((colwise_reduce_expr.ctor IsEmbed f arg).nelems
          = (colwise_reduce_expr.ctor IsEmbed f arg).nrows
            * (colwise_reduce_expr.ctor IsEmbed f arg).ncolumns ∧
        (colwise_reduce_expr.ctor IsEmbed f arg).nelems = arg.ncolumns ∧
        ((colwise_reduce_expr.ctor IsEmbed f arg).size : Int)
          = (colwise_reduce_expr.ctor IsEmbed f arg).nelems) ∧
      ((rowwise_reduce_expr.ctor IsEmbed f arg).nelems
          = (rowwise_reduce_expr.ctor IsEmbed f arg).nrows
            * (rowwise_reduce_expr.ctor IsEmbed f arg).ncolumns ∧
        (rowwise_reduce_expr.ctor IsEmbed f arg).nelems = arg.nrows ∧
        ((rowwise_reduce_expr.ctor IsEmbed f arg).size : Int)
          = (rowwise_reduce_expr.ctor IsEmbed f arg).nelems) := by
  refine ⟨⟨?_, rfl, ?_⟩, ⟨?_, rfl, ?_⟩⟩
  · simp [colwise_reduce_expr.ctor, Xpr.nelems, Xpr.nrows, Xpr.ncolumns]
  · exact static_cast_size_t_of_nonneg arg.ncolumns hc0 hc
  · simp [rowwise_reduce_expr.ctor, Xpr.nelems, Xpr.nrows, Xpr.ncolumns]
  · exact static_cast_size_t_of_nonneg arg.nrows hr0 hr

/-- C26 at a concrete operand with zero rows: over the `0 × 3` matrix the column-wise sum
node has shape `1 × 3`, three elements and size three, and the row-wise sum node has shape
`0 × 1`, no elements and size zero. -/
theorem C26_reduction_node_element_count_witness :
    (0 ≤ mat03.nrows ∧ 0 ≤ mat03.ncolumns ∧ mat03.nrows < 2 ^ 63 ∧
        mat03.ncolumns < 2 ^ 63) ∧
      (((colwise_reduce_expr.ctor false (sum_fun .double) mat03).nelems
            = (colwise_reduce_expr.ctor false (sum_fun .double) mat03).nrows
              * (colwise_reduce_expr.ctor false (sum_fun .double) mat03).ncolumns ∧
          (colwise_reduce_expr.ctor false (sum_fun .double) mat03).nelems = mat03.ncolumns ∧
          ((colwise_reduce_expr.ctor false (sum_fun .double) mat03).size : Int)
            = (colwise_reduce_expr.ctor false (sum_fun .double) mat03).nelems) ∧
        ((rowwise_reduce_expr.ctor false (sum_fun .double) mat03).nelems
            = (rowwise_reduce_expr.ctor false (sum_fun .double) mat03).nrows
              * (rowwise_reduce_expr.ctor false (sum_fun .double) mat03).ncolumns ∧
          (rowwise_reduce_expr.ctor false (sum_fun .double) mat03).nelems = mat03.nrows ∧
          ((rowwise_reduce_expr.ctor false (sum_fun .double) mat03).size : Int)
            = (rowwise_reduce_expr.ctor false (sum_fun .double) mat03).nelems)) ∧
      (colwise_reduce_expr.ctor false (sum_fun .double) mat03).size = 3 ∧
      (rowwise_reduce_expr.ctor false (sum_fun .double) mat03).size = 0 :=
  ⟨⟨by decide, by decide, by decide, by decide⟩,
    C26_reduction_node_element_count (sum_fun .double) mat03 false
      (by decide) (by decide) (by decide) (by decide),
    by decide, by decide⟩

end lmat
